import Mathlib

/-!
Verification development for the archaid partition-provisioning engine
(src/installerworker.cpp). The engine is shallowly embedded: every external
command output that the C++ code reads (lsblk tables, parted prints,
findmnt, blkid, exit codes of mutating commands, ...) is a field of an
oracle structure called World, and every engine function is translated
into a pure Lean function from its inputs and the World to the list of
observable actions it performs (commands executed, log/error messages,
the completion signal, file writes). Commands issued through
QProcess.execute in the C++ source (all mutating commands) are recorded
as Step.run actions; read-only queries issued through QProcess.start are
modelled as World lookups.

Numeric strings parsed with QString.toDouble are modelled at parse level:
the oracle field qToDouble gives the parsed rational (0 on failure, as Qt
does when the ok flag is ignored), and functions that receive
already-parsed values take Option Rat arguments (none = parse failure).
-/

/-! ## Character-list string helpers

Lean 4.14 core string functions (trim, splitOn, toLower, replace,
startsWith) are implemented with well-founded recursion and do not reduce
in the kernel, so the QString operations used by the source are
re-implemented structurally over the underlying character lists. -/

/-- Does s start with p (QString startsWith)? -/
def chStartsWith (s p : String) : Bool := p.data.isPrefixOf s.data

/-- Split a character list on a separator character, keeping empty parts
(QString split with KeepEmptyParts, single-character separator). -/
def splitOnCharAux (c : Char) : List Char → List Char → List String
  | [], acc => [String.mk acc.reverse]
  | x :: xs, acc =>
    if x = c then String.mk acc.reverse :: splitOnCharAux c xs []
    else splitOnCharAux c xs (x :: acc)

/-- QString split on a single separator character. -/
def chSplitOn (c : Char) (s : String) : List String := splitOnCharAux c s.data []

/-- QString trimmed: strip leading and trailing whitespace. -/
def chTrim (s : String) : String :=
  String.mk (((s.data.dropWhile Char.isWhitespace).reverse.dropWhile Char.isWhitespace).reverse)

/-- QString toLower. -/
def chToLower (s : String) : String := String.mk (s.data.map Char.toLower)

/-- Remove every occurrence of a pattern from a character list (fueled by
the list length, which bounds the number of removal steps). -/
def removeSubAux (pat : List Char) : Nat → List Char → List Char
  | 0, l => l
  | _, [] => []
  | fuel + 1, x :: xs =>
    if pat.isPrefixOf (x :: xs) then removeSubAux pat fuel ((x :: xs).drop pat.length)
    else x :: removeSubAux pat fuel xs

/-- QString remove of a substring pattern. -/
def chRemove (pat : String) (s : String) : String :=
  if pat.data.isEmpty then s else String.mk (removeSubAux pat.data s.data.length s.data)

/-- Drop the first n characters (QString mid(n)). -/
def chDrop (n : Nat) (s : String) : String := String.mk (s.data.drop n)

/-- Substring containment test over character lists. -/
def containsSubAux (pat : List Char) : List Char → Bool
  | [] => pat.isPrefixOf []
  | x :: xs => pat.isPrefixOf (x :: xs) || containsSubAux pat xs

/-- QString contains (substring containment). -/
def chContains (s pat : String) : Bool := containsSubAux pat.data s.data

/-- QString toInt restricted to the non-negative numbers appearing in
partition tables: the whole string must be digits, else 0 (Qt returns 0
when parsing fails). -/
def qStringToInt (s : String) : Int :=
  if s.data ≠ [] ∧ s.data.all Char.isDigit then
    Int.ofNat (s.data.foldl (fun acc c => acc * 10 + (c.toNat - 48)) 0)
  else 0

/-! ## Observable actions -/

/-- One observable action of the engine: a mutating external command
(argv list, as passed to QProcess.execute), a file removal, the
mount-state JSON write (root key always present, esp key optional),
a log or error signal, the completion signal, a warning, or the settle
sleep. -/
inductive Step where
  | run (argv : List String)
  | fileRemove (path : String)
  | stateWrite (path root : String) (esp : Option String)
  | log (msg : String)
  | error (msg : String)
  | warn (msg : String)
  | complete
  | sleep
deriving DecidableEq, Repr

/-- Strategy selector of the installer (InstallerWorker InstallMode). -/
inductive InstallMode where
  | WipeDrive
  | UsePartition
  | UseFreeSpace
deriving DecidableEq, Repr

/-! ## The oracle world -/

/-- Oracle for everything the engine reads from the outside.
Fields indexed by Nat give the output of the k-th invocation of that
query within the modelled function call (the world changes as partitions
are created, so successive lsblk snapshots may differ). -/
structure World where
  /-- Result of locating the parted binary; empty when not found. -/
  partedBin : String
  /-- Exit code of each mutating command (QProcess.execute). -/
  exec : List String → Int
  /-- Output rows (already whitespace-split into columns) of the k-th
  system-wide lsblk NAME,TYPE,PKNAME query made by the modelled call. -/
  lsblkAt : Nat → List (List String)
  /-- Lines of lsblk -ln -o NAME for the target device. -/
  lsblkNames : List String
  /-- Rows of lsblk NAME,TYPE,MOUNTPOINT for the target device. -/
  mountRows : List (List String)
  /-- Output of lsblk -no FSTYPE for a partition path. -/
  fstypeOf : String → String
  /-- Rows of the 6-column lsblk query made by the k-th findExistingEsp
  call (NAME,TYPE,PKNAME,PARTTYPE,PARTLABEL,FSTYPE). -/
  espRowsAt : Nat → List (List String)
  /-- Lines of the k-th parted -m unit MiB print query. -/
  partedPrintAt : Nat → List String
  /-- Lines of parted -m unit MiB print free. -/
  freeLines : List String
  /-- Output of findmnt -no SOURCE / . -/
  findmntRoot : String
  /-- Parsed /proc/mounts lines: (source device, mountpoint). -/
  procMounts : List (String × String)
  /-- Output of blkid -U uuid. -/
  blkidU : String → String
  /-- Output of blkid -L label. -/
  blkidL : String → String
  /-- Whitespace-split columns of lsblk -ln -o NAME,TYPE,PKNAME for one
  node (used by the base-disk walk); empty list models empty output. -/
  lsblkNode : String → List String
  /-- QFileInfo canonicalFilePath. -/
  canonical : String → String
  /-- Device nodes listed in /proc/swaps. -/
  swapDevs : List String
  /-- Volume group name reported by lvs for a device node. -/
  lvsVg : String → String
  /-- Entries of /sys/class/block/NAME/holders. -/
  holdersOf : String → List String
  /-- Outcome of getPartitionGeometry for the selected partition: none
  when the partition line could not be parsed from parted output, some
  (s, e) with the parse results of the two captured MiB strings
  otherwise. -/
  geomFound : Option (Option ℚ × Option ℚ)
  /-- QString toDouble, with 0 on failure (ok flag ignored at the
  call sites modelled with this field). -/
  qToDouble : String → ℚ
  /-- Whether opening the mount-state file for writing succeeds. -/
  stateOpenOk : Bool

/-! ## Device inspector helpers (translations of the static helpers of
src/installerworker.cpp) -/

/-- Fixed path of the persisted mount state (targetStateFilePath). -/
def targetStateFilePath : String := "/tmp/archaid-target.json"

/-- Base kernel name of a device path (baseNameOf). -/
def baseNameOf (devPath : String) : String :=
  if chStartsWith devPath "/dev/" then chDrop 5 devPath else devPath

/-- Insert into a QSet modelled as a duplicate-free list. -/
def qsetInsert (x : String) (l : List String) : List String :=
  if x ∈ l then l else x :: l

/-- QSet difference: the members of a that are not members of b. -/
def qsetDiff (a b : List String) : List String :=
  a.filter (fun x => decide (x ∉ b))

/-- One row of the childPartitionsSet scan: insert the kernel name when
the row has at least three columns, its type is part and its parent
kernel name matches the disk base name. -/
def childStep (base : String) (acc : List String) (cols : List String) : List String :=
  match cols with
  | name :: ty :: pk :: _ => if ty = "part" ∧ pk = base then qsetInsert name acc else acc
  | _ => acc

/-- Child partition kernel names of a disk from an lsblk NAME,TYPE,PKNAME
table (childPartitionsSet): rows with at least three columns whose type
is part and whose parent kernel name matches the disk. The QSet is
modelled as a duplicate-free list. -/
def childPartitionsSet (table : List (List String)) (devPath : String) : List String :=
  table.foldl (childStep (baseNameOf devPath)) []

/-- Detect one newly created partition by diffing the after snapshot
against the before set (detectNewPartitionNode): the result is the single
element of after minus before as a /dev path, or the empty string when
the difference does not have exactly one element. -/
def detectNewPartitionNode (table : List (List String)) (devPath : String)
    (before : List String) : String :=
  let after := childPartitionsSet table devPath
  let diff := qsetDiff after before
  if diff.length = 1 then
    match diff with
    | [x] => "/dev/" ++ x
    | _ => ""
  else ""

/-- Build a partition node path from a base name and number
(partitionNodeFor): an extra p separator when the base ends in a digit. -/
def partitionNodeFor (baseName : String) (partNum : Int) : String :=
  if baseName ≠ "" ∧ (baseName.data.getLastD ' ').isDigit then
    "/dev/" ++ baseName ++ "p" ++ toString partNum
  else "/dev/" ++ baseName ++ toString partNum

/-- Trailing partition number of a device path
(partitionNumberFromPath): the maximal run of digits ending the last
path component, empty when there is none. -/
def partitionNumberFromPath (partPath : String) : String :=
  let name := (chSplitOn '/' partPath).getLastD ""
  String.mk ((name.data.reverse.takeWhile Char.isDigit).reverse)

/-- Is the partition already VFAT/FAT32 (isPartitionVfat)? -/
def isPartitionVfat (w : World) (partPath : String) : Bool :=
  let fstype := chToLower (chTrim (w.fstypeOf partPath))
  fstype = "vfat" || fstype = "fat32" || fstype = "msdos"

/-- The EFI System Partition GUID tested by findExistingEsp. -/
def espGuid : String := "c12a7328-f81f-11d2-ba4b-00a0c93ec93b"

/-- Find an existing ESP on the disk (findExistingEsp). Stage one scans
the 6-column lsblk rows for a child partition with the ESP type GUID, an
esp or efi-system label, or a vfat/fat32 filesystem; stage two falls
back to parted print lines whose flags column mentions esp. -/
def findExistingEsp (rows : List (List String)) (plines : List String)
    (devPath : String) : String :=
  let base := baseNameOf devPath
  let stage1 := rows.findSome? fun cols =>
    match cols with
    | name :: ty :: pk :: parttypeRaw :: labelRaw :: fstypeRaw :: _ =>
      let parttype := chToLower parttypeRaw
      let label := chToLower labelRaw
      let fstype := chToLower fstypeRaw
      if ty = "part" ∧ pk = base ∧
          (parttype = espGuid ∨ chContains label "esp" = true ∨
           chContains label "efi system" = true ∨ fstype = "vfat" ∨ fstype = "fat32") then
        some ("/dev/" ++ name)
      else none
    | _ => none
  match stage1 with
  | some r => r
  | none =>
    let stage2 := plines.findSome? fun line =>
      let cols := chSplitOn ':' line
      match cols with
      | number :: _ :: _ :: _ :: _ :: _ :: flags :: _ =>
        if number ≠ "" ∧ (number.data.headD ' ').isDigit ∧
            chContains (chToLower flags) "esp" = true then
          some (partitionNodeFor base (qStringToInt number))
        else none
      | _ => none
    match stage2 with
    | some r => r
    | none => ""

/-- Find an existing bios_grub partition on the disk
(findExistingBiosGrub), from parted print lines whose flags column
mentions bios_grub. -/
def findExistingBiosGrub (plines : List String) (devPath : String) : String :=
  let base := baseNameOf devPath
  let found := plines.findSome? fun line =>
    let cols := chSplitOn ':' line
    match cols with
    | number :: _ :: _ :: _ :: _ :: _ :: flags :: _ =>
      if number ≠ "" ∧ (number.data.headD ' ').isDigit ∧
          chContains (chToLower flags) "bios_grub" = true then
        some (partitionNodeFor base (qStringToInt number))
      else none
    | _ => none
  match found with
  | some r => r
  | none => ""

/-! ## System-disk resolution -/

/-- Device backing the mounted root filesystem (rootSourceDevice):
findmnt output, falling back to the first /proc/mounts line mounted at /,
then resolving UUID= or LABEL= indirection through blkid. -/
def rootSourceDevice (w : World) : String :=
  let src0 := chTrim w.findmntRoot
  let src1 :=
    if src0 = "" then
      match w.procMounts.find? (fun pr => pr.2 = "/") with
      | some pr => pr.1
      | none => ""
    else src0
  if ¬ chStartsWith src1 "/dev/" = true ∧
      (chStartsWith src1 "UUID=" = true ∨ chStartsWith src1 "LABEL=" = true) then
    let dev :=
      if chStartsWith src1 "UUID=" = true then chTrim (w.blkidU (chDrop 5 src1))
      else chTrim (w.blkidL (chDrop 6 src1))
    if chStartsWith dev "/dev/" = true then dev else src1
  else src1

/-- One walk of the base-disk resolution loop, fueled by the remaining
hop count (resolveBaseDisk caps the walk at 6 hops). -/
def resolveBaseDiskAux (q : String → List String) : Nat → String → String
  | 0, _ => ""
  | fuel + 1, cur =>
    match q cur with
    | name :: ty :: rest =>
      if ty = "disk" then "/dev/" ++ name
      else
        let pk := rest.headD ""
        if pk ≠ "" then resolveBaseDiskAux q fuel ("/dev/" ++ pk) else ""
    | _ => ""

/-- Base disk of a node (resolveBaseDisk): walk parent kernel names up to
a disk-type node, at most 6 hops; empty string on failure. -/
def resolveBaseDisk (q : String → List String) (devOrMapper : String) : String :=
  if chStartsWith devOrMapper "/dev/" = true then resolveBaseDiskAux q 6 devOrMapper
  else ""

/-- Is this the disk backing the running root (isSystemDisk)? False when
the root source is unknown or either base-disk resolution fails;
otherwise compare canonical paths of the two base disks. -/
def isSystemDisk (w : World) (devPath : String) : Bool :=
  let rootSrc := rootSourceDevice w
  if rootSrc = "" then false
  else
    let rootDisk := resolveBaseDisk w.lsblkNode rootSrc
    let targetDisk := resolveBaseDisk w.lsblkNode devPath
    if rootDisk = "" ∨ targetDisk = "" then false
    else decide (w.canonical rootDisk = w.canonical targetDisk)

/-! ## Geometry resolver -/

/-- Integer MiB bounds from two parsed decimal MiB values
(parseMiBToBounds). The inputs are the parse outcomes of the two strings
(none models a QString toDouble failure after normalization). Start is
rounded up, end rounded down, start clamped to at least 1; the result is
some (start, end) exactly when the rounded range is non-empty. -/
def parseMiBToBounds (s e : Option ℚ) : Option (ℤ × ℤ) :=
  match s, e with
  | some sv, some ev =>
    let startMiB : ℤ := ⌈sv⌉
    let endMiB : ℤ := ⌊ev⌋
    let startClamped : ℤ := if startMiB < 1 then 1 else startMiB
    if startClamped < endMiB then some (startClamped, endMiB) else none
  | _, _ => none

/-! ## Trace building blocks -/

/-- The udevadm settle command. -/
def settleCmd : List String := ["sudo", "udevadm", "settle"]

/-- The partprobe, settle, sleep sequence issued after each table
mutation. -/
def settleSeq (devPath : String) : List Step :=
  [Step.run ["sudo", "partprobe", devPath], Step.run settleCmd, Step.sleep]

/-- The three staging-mountpoint unmounts issued at the top of both
detach helpers. -/
def stagingUnmounts : List Step :=
  [Step.run ["sudo", "umount", "-Rl", "/mnt/boot/efi"],
   Step.run ["sudo", "umount", "-Rl", "/mnt/boot"],
   Step.run ["sudo", "umount", "-Rl", "/mnt"]]

/-- Persist the mount state (recordTargetMountState): a JSON object with
key root and, when an ESP device is present, key esp, written to the
fixed path; a warning and no write when the file cannot be opened. -/
def recordTargetMountState (w : World) (rootDev espDev : String) : List Step :=
  if w.stateOpenOk then
    [Step.stateWrite targetStateFilePath rootDev (if espDev = "" then none else some espDev)]
  else
    [Step.warn "Failed to persist target mount state"]

/-! ## Device detacher -/

/-- Safer preflight unmounts (safePreflightUnmounts): always clean the
staging mountpoints; on the system disk stop there after a settle; on a
non-system disk also lazily unmount partitions of the target disk whose
mountpoint is under /media/, /run/media/ or /mnt/. -/
def safePreflightUnmounts (w : World) (devPath : String) : List Step :=
  if isSystemDisk w devPath then
    stagingUnmounts ++ [Step.run settleCmd]
  else
    let unmounts := w.mountRows.filterMap fun cols =>
      match cols with
      | name :: ty :: rest =>
        if ty = "part" then
          let mp := rest.headD ""
          if mp ≠ "" ∧ (chStartsWith mp "/media/" = true ∨
              chStartsWith mp "/run/media/" = true ∨ chStartsWith mp "/mnt/" = true) then
            some (Step.run ["sudo", "umount", "-l", "/dev/" ++ name])
          else none
        else none
      | _ => none
    stagingUnmounts ++ unmounts ++ [Step.run settleCmd]

/-- Collect the volume groups backing lvm/dm nodes whose parent kernel
name is a partition of the target disk (step 4 of
bestEffortDetachDevice). -/
def detachVgList (w : World) (parts : List String) : List String :=
  (w.lsblkAt 2).foldl (fun acc cols =>
    match cols with
    | name :: ty :: pk :: _ =>
      if (ty = "lvm" ∨ ty = "dm") ∧ pk ∈ parts then
        let vg := chTrim (w.lvsVg ("/dev/" ++ name))
        if vg ≠ "" then qsetInsert vg acc else acc
      else acc
    | _ => acc) []

/-- Strong device detach (bestEffortDetachDevice): clean the staging
mountpoints; if the target is the system disk, warn and settle, nothing
else; otherwise unmount every partition through udisksctl, swapoff swap
partitions, close LUKS mappings parented on the disk, deactivate volume
groups living on it, kill remaining holders with fuser, remove dm
holders, then reread the table, settle, sleep and best-effort
power-off. -/
def bestEffortDetachDevice (w : World) (devPath : String) : List Step :=
  if isSystemDisk w devPath then
    stagingUnmounts ++
      [Step.warn ("[detach] Target is system disk; skipping device-wide unmounts/kills for "
          ++ devPath),
       Step.run settleCmd]
  else
    let parts := childPartitionsSet (w.lsblkAt 0) devPath
    let unmounts := parts.map fun pn =>
      Step.run ["sudo", "udisksctl", "unmount", "-b", "/dev/" ++ pn]
    let swapoffs := (parts.filter (fun pn => decide (("/dev/" ++ pn) ∈ w.swapDevs))).map
      fun pn => Step.run ["sudo", "swapoff", "/dev/" ++ pn]
    let cryptcloses := (w.lsblkAt 1).filterMap fun cols =>
      match cols with
      | name :: ty :: pk :: _ =>
        if ty = "crypt" ∧ pk ∈ parts then
          some (Step.run ["sudo", "cryptsetup", "close", "/dev/" ++ name])
        else none
      | _ => none
    let vgcmds := (detachVgList w parts).map fun vg =>
      Step.run ["sudo", "vgchange", "-an", vg]
    let nodes := devPath :: parts.map (fun pn => "/dev/" ++ pn)
    let fusers := nodes.map fun n => Step.run ["sudo", "fuser", "-km", n]
    let dms := parts.flatMap fun pn =>
      (w.holdersOf pn).map fun h => Step.run ["sudo", "dmsetup", "remove", "-f", h]
    stagingUnmounts ++ unmounts ++ swapoffs ++ cryptcloses ++ vgcmds ++ fusers ++ dms ++
      [Step.run ["sudo", "blockdev", "--rereadpt", devPath],
       Step.run ["sudo", "partprobe", devPath],
       Step.run settleCmd,
       Step.sleep,
       Step.run ["sudo", "udisksctl", "power-off", "-b", devPath]]

/-! ## WipeDrive strategy (the inline WipeDrive path of
InstallerWorker run, src/installerworker.cpp lines 1203-1287) -/

/-- Root formatting and mounting tail of the WipeDrive path. -/
def wipeFinishRoot (w : World) (efiInstall : Bool) (espPart rootPart : String)
    (pre : List Step) : List Step :=
  let cExt := ["sudo", "mkfs.ext4", "-F", rootPart]
  if w.exec cExt ≠ 0 then
    pre ++ [Step.log "Formatting root as ext4...", Step.run cExt,
            Step.error "Failed to format root partition."]
  else
    pre ++ [Step.log "Formatting root as ext4...", Step.run cExt,
            Step.run ["sudo", "e2fsck", "-f", rootPart],
            Step.log "Mounting new partitions...",
            Step.run ["sudo", "mount", rootPart, "/mnt"]] ++
      (if efiInstall then
        [Step.run ["sudo", "mkdir", "-p", "/mnt/boot/efi"],
         Step.run ["sudo", "mount", espPart, "/mnt/boot/efi"]]
      else []) ++
      recordTargetMountState w rootPart (if efiInstall then espPart else "") ++
      [Step.complete]

/-- Format and mount tail of the WipeDrive path: format the ESP when in
EFI mode (fatal on failure), format root as ext4 (fatal on failure), run
the non-fatal e2fsck pass, mount root, mount the ESP in EFI mode (both
mount results ignored), persist the mount state and signal completion. -/
def wipeFinish (w : World) (efiInstall : Bool) (espPart rootPart : String)
    (pre : List Step) : List Step :=
  if efiInstall then
    let cFat := ["sudo", "mkfs.fat", "-F32", espPart]
    if w.exec cFat ≠ 0 then
      pre ++ [Step.log "Formatting ESP as FAT32...", Step.run cFat, Step.error "Failed to format ESP."]
    else
      wipeFinishRoot w efiInstall espPart rootPart
        (pre ++ [Step.log "Formatting ESP as FAT32...", Step.run cFat])
  else wipeFinishRoot w efiInstall espPart rootPart pre

/-- The WipeDrive strategy as executed by InstallerWorker run: GPT label,
boot partition (ESP 1MiB-513MiB flagged esp in EFI mode, bios_grub
1MiB-3MiB otherwise), root partition from the boot partition end to 100%
of the disk, positional detection of the created nodes from lsblk
NAME output, then format, mount, record state and complete. -/
def runWipeDrive (w : World) (efiInstall : Bool) (devPath : String) : List Step :=
  let header : List Step :=
    [Step.log (if efiInstall then "Preparing drive for EFI (GPT + ESP + root)"
               else "Preparing drive for BIOS/GRUB (GPT + bios_grub + root)")]
  let cLabel := ["sudo", w.partedBin, devPath, "--script", "mklabel", "gpt"]
  if w.exec cLabel ≠ 0 then
    header ++ [Step.run cLabel, Step.error "Failed to create GPT partition table."]
  else
    let pre := header ++ [Step.run cLabel] ++ settleSeq devPath
    let afterParts : List Step → List Step := fun pre2 =>
      let pre3 := pre2 ++ settleSeq devPath
      let parts := w.lsblkNames
      if efiInstall ∧ parts.length ≥ 2 then
        let espPart := "/dev/" ++ parts.getD (parts.length - 2) ""
        let rootPart := "/dev/" ++ parts.getLastD ""
        wipeFinish w efiInstall espPart rootPart pre3
      else if ¬ efiInstall ∧ parts.length ≥ 2 then
        let rootPart := "/dev/" ++ parts.getLastD ""
        wipeFinish w efiInstall "" rootPart pre3
      else
        pre3 ++ [Step.error "Could not detect created partitions after wipe."]
    if efiInstall then
      let cEsp := ["sudo", w.partedBin, devPath, "--script", "mkpart", "primary", "fat32",
                   "1MiB", "513MiB"]
      if w.exec cEsp ≠ 0 then
        pre ++ [Step.run cEsp, Step.error "Failed to create/set ESP partition."]
      else
        let cName := ["sudo", w.partedBin, devPath, "--script", "name", "1", "ESP"]
        if w.exec cName ≠ 0 then
          pre ++ [Step.run cEsp, Step.run cName, Step.error "Failed to create/set ESP partition."]
        else
          let cFlag := ["sudo", w.partedBin, devPath, "--script", "set", "1", "esp", "on"]
          if w.exec cFlag ≠ 0 then
            pre ++ [Step.run cEsp, Step.run cName, Step.run cFlag,
                    Step.error "Failed to create/set ESP partition."]
          else
            let cRoot := ["sudo", w.partedBin, devPath, "--script", "mkpart", "primary",
                          "ext4", "513MiB", "100%"]
            if w.exec cRoot ≠ 0 then
              pre ++ [Step.run cEsp, Step.run cName, Step.run cFlag, Step.run cRoot,
                      Step.error "Failed to create root partition."]
            else
              afterParts (pre ++ [Step.run cEsp, Step.run cName, Step.run cFlag, Step.run cRoot])
    else
      let cBios := ["sudo", w.partedBin, devPath, "--script", "mkpart", "primary",
                    "1MiB", "3MiB"]
      if w.exec cBios ≠ 0 then
        pre ++ [Step.run cBios, Step.error "Failed to create/set bios_grub partition."]
      else
        let cFlag := ["sudo", w.partedBin, devPath, "--script", "set", "1", "bios_grub", "on"]
        if w.exec cFlag ≠ 0 then
          pre ++ [Step.run cBios, Step.run cFlag,
                  Step.error "Failed to create/set bios_grub partition."]
        else
          let cRoot := ["sudo", w.partedBin, devPath, "--script", "mkpart", "primary",
                        "ext4", "3MiB", "100%"]
          if w.exec cRoot ≠ 0 then
            pre ++ [Step.run cBios, Step.run cFlag, Step.run cRoot,
                    Step.error "Failed to create root partition."]
          else
            afterParts (pre ++ [Step.run cBios, Step.run cFlag, Step.run cRoot])

/-! ## UseFreeSpace strategy (InstallerWorker createFromFreeSpace,
src/installerworker.cpp lines 962-1182) -/

/-- Exact integer MiB token from a double value: round to the nearest
integer (cast of v + 0.5) and append MiB (the local miB lambda). -/
def miBtok (v : ℚ) : String := toString (Int.toNat ⌊v + 1/2⌋) ++ "MiB"

/-- Parse the explicit free-extent token: when the target string starts
with the FREE marker and splits into at least three colon-separated
fields, the second and third fields are parsed with toDouble (0 on
failure, since the ok flag is ignored); otherwise both values stay at
the -1 sentinels. -/
def selExtent (w : World) (targetPartition : String) : ℚ × ℚ :=
  if chStartsWith targetPartition "__FREE__:" then
    let t := chSplitOn ':' targetPartition
    if 3 ≤ t.length then (w.qToDouble (t.getD 1 ""), w.qToDouble (t.getD 2 ""))
    else (-1, -1)
  else (-1, -1)

/-- The local toMiBnum lambda: strip every character that is not a digit
or a dot, then parse with toDouble. -/
def toMiBnumQ (w : World) (s : String) : ℚ :=
  w.qToDouble (String.mk (s.data.filter (fun c => c.isDigit ∨ c = '.')))

/-- Scan the parted free-print lines for the largest free extent:
skip blank, BYT and device lines, require at least four colon-separated
columns and a column equal to free (case-insensitively), and keep the
row with the largest size whose end exceeds its start. Result is
(bestSize, bestStart, bestEnd) with -1 sentinels when nothing found. -/
def bestFreeExtent (w : World) (lines : List String) : ℚ × ℚ × ℚ :=
  lines.foldl (fun acc lRaw =>
    let l := chTrim lRaw
    if l = "" then acc
    else if chStartsWith l "BYT" then acc
    else if chStartsWith l "/dev/" then acc
    else
      let cols := chSplitOn ':' l
      if cols.length < 4 then acc
      else if ¬ (cols.any (fun c => chToLower c = "free")) then acc
      else
        let s := toMiBnumQ w (cols.getD 1 "")
        let e := toMiBnumQ w (cols.getD 2 "")
        let z := toMiBnumQ w (cols.getD 3 "")
        if z > acc.1 ∧ e > s then (z, s, e) else acc) (0, -1, -1)

/-- Shared format-and-mount tail of the EFI free-space branches: format
the new ESP when one was created (fatal on failure), format root as ext4
(fatal on failure), run e2fsck, then mount root, create the ESP
directory and mount the ESP with all three results ignored, and signal
completion. No mount state is recorded on this path. -/
def freeEfiFinish (w : World) (createdNewEsp : Bool) (espPart rootPart : String)
    (pre : List Step) : List Step :=
  let pre2 :=
    if createdNewEsp then
      pre ++ [Step.log "Formatting new ESP as FAT32…"]
    else
      pre ++ [Step.log "Reusing existing ESP (will not format) …"]
  let formatEsp : Option (List Step) :=
    if createdNewEsp then
      let cFat := ["sudo", "mkfs.fat", "-F32", espPart]
      if w.exec cFat ≠ 0 then none else some (pre2 ++ [Step.run cFat])
    else some pre2
  match formatEsp with
  | none =>
    pre2 ++ [Step.run ["sudo", "mkfs.fat", "-F32", espPart],
             Step.error "Failed to format new ESP."]
  | some pre3 =>
    let cExt := ["sudo", "mkfs.ext4", "-F", rootPart]
    if w.exec cExt ≠ 0 then
      pre3 ++ [Step.log "Formatting root as ext4…", Step.run cExt,
               Step.error "Failed to format root."]
    else
      pre3 ++ [Step.log "Formatting root as ext4…", Step.run cExt,
               Step.run ["sudo", "e2fsck", "-f", rootPart],
               Step.log "Mounting partitions…",
               Step.run ["sudo", "mount", rootPart, "/mnt"],
               Step.run ["sudo", "mkdir", "-p", "/mnt/boot/efi"],
               Step.run ["sudo", "mount", espPart, "/mnt/boot/efi"],
               Step.complete]

/-- Continuation of the EFI free-space branch after a new ESP creation
command succeeded: detect the new ESP by diffing, name and flag it, then
create root in the remainder of the extent, detect it, and run the
format-and-mount tail. -/
def createFreeEfiNew (w : World) (devPath : String) (endMiB : ℚ) (espEnd : String)
    (beforeEsp : List String) (pre : List Step) : List Step :=
  let espPart := detectNewPartitionNode (w.lsblkAt 2) devPath beforeEsp
  if espPart = "" then
    pre ++ [Step.error "Could not uniquely detect new ESP."]
  else
    let espNum := partitionNumberFromPath espPart
    if espNum = "" then
      pre ++ [Step.error "Could not determine ESP partition number."]
    else
      let pre := pre ++
        [Step.run ["sudo", w.partedBin, devPath, "--script", "name", espNum, "ESP"],
         Step.run ["sudo", w.partedBin, devPath, "--script", "set", espNum, "esp", "on"]]
      let beforeRoot := childPartitionsSet (w.lsblkAt 3) devPath
      let cRoot := ["sudo", w.partedBin, devPath, "--script", "mkpart", "primary", "ext4",
                    espEnd, miBtok (endMiB - 1)]
      if w.exec cRoot ≠ 0 then
        pre ++ [Step.run cRoot, Step.error "Failed to create root partition (free space)."]
      else
        let pre := pre ++ [Step.run cRoot] ++ settleSeq devPath
        let rootPart := detectNewPartitionNode (w.lsblkAt 4) devPath beforeRoot
        if rootPart = "" then
          pre ++ [Step.error "Could not uniquely detect new root partition."]
        else freeEfiFinish w true espPart rootPart pre

/-- EFI branch of createFromFreeSpace: reuse an existing ESP when one is
found (validating that it is FAT-formatted, never reformatting it) and
create only root in the chosen extent, else create a new 512 MiB ESP at
the start of the extent followed by root in the remainder, each detected
by before/after diffing. -/
def createFreeEfi (w : World) (devPath : String) (startMiB endMiB : ℚ)
    (pre : List Step) : List Step :=
  let existingEsp := findExistingEsp (w.espRowsAt 0) (w.partedPrintAt 0) devPath
  if existingEsp ≠ "" then
    let pre := pre ++ [Step.log ("Found existing ESP: " ++ existingEsp)]
    if ¬ isPartitionVfat w existingEsp = true then
      pre ++ [Step.error ("Existing ESP (" ++ existingEsp ++ ") is not FAT32. Refusing to modify it.")]
    else
      let before := childPartitionsSet (w.lsblkAt 1) devPath
      let cRoot := ["sudo", w.partedBin, devPath, "--script", "mkpart", "primary", "ext4",
                    miBtok startMiB, miBtok (endMiB - 1)]
      if w.exec cRoot ≠ 0 then
        pre ++ [Step.run cRoot, Step.error "Failed to create root partition (free space)."]
      else
        let pre := pre ++ [Step.run cRoot] ++ settleSeq devPath
        let rootPart := detectNewPartitionNode (w.lsblkAt 2) devPath before
        if rootPart = "" then
          pre ++ [Step.error "Could not uniquely detect new root partition."]
        else freeEfiFinish w false existingEsp rootPart pre
  else
    let beforeEsp := childPartitionsSet (w.lsblkAt 1) devPath
    let espEnd := miBtok (startMiB + 512)
    let cEsp := ["sudo", w.partedBin, devPath, "--script", "mkpart", "primary", "fat32",
                 miBtok startMiB, espEnd]
    if w.exec cEsp ≠ 0 then
      pre ++ [Step.run cEsp, Step.error "Failed to create ESP (free space)."]
    else
      createFreeEfiNew w devPath endMiB espEnd beforeEsp
        (pre ++ [Step.run cEsp] ++ settleSeq devPath)

/-- BIOS branch of createFromFreeSpace: a single ext4 root partition in
the chosen extent, detected by diffing; here the root mount result is
checked and a failure is fatal. No mount state is recorded. -/
def createFreeBios (w : World) (devPath : String) (startMiB endMiB : ℚ)
    (pre : List Step) : List Step :=
  let before := childPartitionsSet (w.lsblkAt 1) devPath
  let cRoot := ["sudo", w.partedBin, devPath, "--script", "mkpart", "primary", "ext4",
                miBtok startMiB, miBtok (endMiB - 1)]
  if w.exec cRoot ≠ 0 then
    pre ++ [Step.run cRoot, Step.error "Failed to create root partition (free space)."]
  else
    let pre := pre ++ [Step.run cRoot] ++ settleSeq devPath
    let rootPartNew := detectNewPartitionNode (w.lsblkAt 2) devPath before
    if rootPartNew = "" then
      pre ++ [Step.error "Could not uniquely detect new root partition."]
    else
      let cExt := ["sudo", "mkfs.ext4", "-F", rootPartNew]
      if w.exec cExt ≠ 0 then
        pre ++ [Step.log "Formatting root as ext4…", Step.run cExt,
                Step.error "Failed to format root."]
      else
        let cMnt := ["sudo", "mount", rootPartNew, "/mnt"]
        let pre := pre ++ [Step.log "Formatting root as ext4…", Step.run cExt,
                           Step.run ["sudo", "e2fsck", "-f", rootPartNew],
                           Step.log "Mounting root partition…", Step.run cMnt]
        if w.exec cMnt ≠ 0 then
          pre ++ [Step.error "Failed to mount root at /mnt."]
        else pre ++ [Step.complete]

/-- The UseFreeSpace strategy (createFromFreeSpace): use the explicit
extent when its parsed start is positive and its end exceeds its start,
otherwise auto-select the largest free extent from the parted free
print (error when none); reject the chosen extent when its end is at
most 10 MiB past its start; then run the EFI or BIOS branch. -/
def createFromFreeSpace (w : World) (efiInstall : Bool)
    (targetPartition devPath : String) : List Step :=
  let sel := selExtent w targetPartition
  let pre0 : List Step := [Step.log "Searching for free space…"]
  let chosen : Option (String × String × List Step) :=
    if sel.1 > 0 ∧ sel.2 > sel.1 then
      some (miBtok sel.1, miBtok sel.2,
        [Step.log ("Using selected free extent: " ++ miBtok sel.1 ++ " → " ++ miBtok sel.2)])
    else
      let b := bestFreeExtent w w.freeLines
      if b.2.1 < 0 then none
      else
        some (miBtok b.2.1, miBtok b.2.2,
          [Step.log ("Using largest free extent: " ++ miBtok b.2.1 ++ " → " ++ miBtok b.2.2)])
  match chosen with
  | none => pre0 ++ [Step.error "No suitable free space found."]
  | some (bestStartStr, bestEndStr, selLog) =>
    let startMiB := w.qToDouble (chRemove "MiB" bestStartStr)
    let endMiB := w.qToDouble (chRemove "MiB" bestEndStr)
    if endMiB ≤ startMiB + 10 then
      pre0 ++ selLog ++ [Step.error "Selected free space is too small."]
    else
      let pre := pre0 ++ selLog
      if efiInstall then createFreeEfi w devPath startMiB endMiB pre
      else createFreeBios w devPath startMiB endMiB pre

/-! ## UsePartition strategy (InstallerWorker
recreateFromSelectedPartition, src/installerworker.cpp lines 656-960).
The source contains duplicated unreachable fallback blocks after the
early returns of the BIOS branch (an unresolved copy-paste defect noted
in the repository); the model follows the single coherent path. -/

/-- EFI reuse branch: an ESP already exists on the disk, so create only
root in the freed region (detected by diffing), format it, mount root
(fatal on failure) then the existing ESP (fatal on failure), record the
mount state and complete. -/
def recreateEfiReuse (w : World) (devPath : String) (startMiB endMiB : ℤ)
    (existingEsp : String) (pre : List Step) : List Step :=
  let before := childPartitionsSet (w.lsblkAt 0) devPath
  let cRoot := ["sudo", w.partedBin, devPath, "--script", "mkpart", "primary", "ext4",
                toString startMiB ++ "MiB", toString (endMiB - 1) ++ "MiB"]
  if w.exec cRoot ≠ 0 then
    pre ++ [Step.run cRoot, Step.error "Failed to create root (existing partition)."]
  else
    let pre := pre ++ [Step.run cRoot] ++ settleSeq devPath
    let rootPart := detectNewPartitionNode (w.lsblkAt 1) devPath before
    if rootPart = "" then
      pre ++ [Step.error "Could not uniquely detect new root partition."]
    else
      let cExt := ["sudo", "mkfs.ext4", "-F", rootPart]
      if w.exec cExt ≠ 0 then
        pre ++ [Step.run cExt, Step.error "Failed to format root."]
      else
        let pre := pre ++ [Step.run cExt, Step.run ["sudo", "e2fsck", "-f", rootPart],
                           Step.log "Mounting root partition..."]
        let cMnt := ["sudo", "mount", rootPart, "/mnt"]
        if w.exec cMnt ≠ 0 then
          pre ++ [Step.run cMnt, Step.error "Failed to mount root at /mnt."]
        else
          let cEspMnt := ["sudo", "mount", existingEsp, "/mnt/boot/efi"]
          if w.exec cEspMnt ≠ 0 then
            pre ++ [Step.run cMnt, Step.run ["sudo", "mkdir", "-p", "/mnt/boot/efi"],
                    Step.run cEspMnt, Step.error "Failed to mount existing ESP at /mnt/boot/efi."]
          else
            pre ++ [Step.run cMnt, Step.run ["sudo", "mkdir", "-p", "/mnt/boot/efi"],
                    Step.run cEspMnt] ++
              recordTargetMountState w rootPart existingEsp ++ [Step.complete]

/-- Root phase of the EFI carve branch, entered after the new ESP has
been created, named and flagged: create root in the remainder (detected
by diffing), format both, mount root (fatal on failure) and the new ESP
(result ignored), record the mount state and complete. -/
def recreateEfiCarveRoot (w : World) (devPath : String) (endMiB : ℤ)
    (espEnd espPart : String) (pre : List Step) : List Step :=
  let beforeRoot := childPartitionsSet (w.lsblkAt 2) devPath
  let cRoot := ["sudo", w.partedBin, devPath, "--script", "mkpart", "primary", "ext4",
                espEnd, toString (endMiB - 1) ++ "MiB"]
  if w.exec cRoot ≠ 0 then
    pre ++ [Step.run cRoot, Step.error "Failed to create root (existing partition)."]
  else
    let pre := pre ++ [Step.run cRoot] ++ settleSeq devPath
    let rootPart := detectNewPartitionNode (w.lsblkAt 3) devPath beforeRoot
    if rootPart = "" then
      pre ++ [Step.error "Could not uniquely detect new root partition."]
    else
      let cFat := ["sudo", "mkfs.fat", "-F32", espPart]
      if w.exec cFat ≠ 0 then
        pre ++ [Step.run cFat, Step.error "Failed to format ESP."]
      else
        let cExt := ["sudo", "mkfs.ext4", "-F", rootPart]
        if w.exec cExt ≠ 0 then
          pre ++ [Step.run cFat, Step.run cExt, Step.error "Failed to format root."]
        else
          let pre := pre ++ [Step.run cFat, Step.run cExt,
                             Step.run ["sudo", "e2fsck", "-f", rootPart],
                             Step.log "Mounting root partition..."]
          let cMnt := ["sudo", "mount", rootPart, "/mnt"]
          if w.exec cMnt ≠ 0 then
            pre ++ [Step.run cMnt, Step.error "Failed to mount root at /mnt."]
          else
            pre ++ [Step.run cMnt, Step.run ["sudo", "mkdir", "-p", "/mnt/boot/efi"],
                    Step.run ["sudo", "mount", espPart, "/mnt/boot/efi"]] ++
              recordTargetMountState w rootPart espPart ++ [Step.complete]

/-- EFI carve branch: no ESP exists, so create a 512 MiB ESP at the
start of the freed region (detected by diffing), name and flag it, then
run the root phase. -/
def recreateEfiCarve (w : World) (devPath : String) (startMiB endMiB : ℤ)
    (pre : List Step) : List Step :=
  let baseline := childPartitionsSet (w.lsblkAt 0) devPath
  let espEnd := toString (startMiB + 512) ++ "MiB"
  let cEsp := ["sudo", w.partedBin, devPath, "--script", "mkpart", "primary", "fat32",
               toString startMiB ++ "MiB", espEnd]
  if w.exec cEsp ≠ 0 then
    pre ++ [Step.run cEsp, Step.error "Failed to create ESP (existing partition)."]
  else
    let pre := pre ++ [Step.run cEsp] ++ settleSeq devPath
    let espPart := detectNewPartitionNode (w.lsblkAt 1) devPath baseline
    if espPart = "" then
      pre ++ [Step.error "Could not uniquely detect new ESP."]
    else
      let espNum := partitionNumberFromPath espPart
      if espNum = "" then
        pre ++ [Step.error "Could not determine ESP partition number."]
      else
        recreateEfiCarveRoot w devPath endMiB espEnd espPart (pre ++
          [Step.run ["sudo", w.partedBin, devPath, "--script", "name", espNum, "ESP"],
           Step.run ["sudo", w.partedBin, devPath, "--script", "set", espNum, "esp", "on"]])

/-- BIOS reuse branch: a bios_grub partition exists, so create only root
in the freed region, format, mount (fatal on failure), record state and
complete. -/
def recreateBiosReuse (w : World) (devPath : String) (startMiB endMiB : ℤ)
    (existingBios : String) (pre : List Step) : List Step :=
  let pre := pre ++ [Step.log ("Found existing bios_grub partition: " ++ existingBios)]
  let before := childPartitionsSet (w.lsblkAt 0) devPath
  let cRoot := ["sudo", w.partedBin, devPath, "--script", "mkpart", "primary", "ext4",
                toString startMiB ++ "MiB", toString (endMiB - 1) ++ "MiB"]
  if w.exec cRoot ≠ 0 then
    pre ++ [Step.run cRoot, Step.error "Failed to create root (existing partition)."]
  else
    let pre := pre ++ [Step.run cRoot] ++ settleSeq devPath
    let rootDev := detectNewPartitionNode (w.lsblkAt 1) devPath before
    if rootDev = "" then
      pre ++ [Step.error "Could not uniquely detect new root partition."]
    else
      let cExt := ["sudo", "mkfs.ext4", "-F", rootDev]
      if w.exec cExt ≠ 0 then
        pre ++ [Step.run cExt, Step.error "Failed to format root."]
      else
        let pre := pre ++ [Step.run cExt, Step.run ["sudo", "e2fsck", "-f", rootDev],
                           Step.log "Mounting root partition..."]
        let cMnt := ["sudo", "mount", rootDev, "/mnt"]
        if w.exec cMnt ≠ 0 then
          pre ++ [Step.run cMnt, Step.error "Failed to mount root at /mnt."]
        else
          pre ++ [Step.run cMnt] ++ recordTargetMountState w rootDev "" ++ [Step.complete]

/-- Root phase of the BIOS carve branch, entered after bios_grub has
been created and flagged: check the remainder fits root, create root
(detected by diffing), format, mount (fatal on failure), record state
and complete. -/
def recreateBiosCarveRoot (w : World) (devPath : String) (biosEndMiB endMiB : ℤ)
    (pre : List Step) : List Step :=
  if endMiB ≤ biosEndMiB + 1 then
    pre ++ [Step.error "Remaining space after bios_grub is insufficient for root partition."]
  else
    let beforeRoot := childPartitionsSet (w.lsblkAt 2) devPath
    let cRoot := ["sudo", w.partedBin, devPath, "--script", "mkpart", "primary",
                  "ext4", toString biosEndMiB ++ "MiB", toString (endMiB - 1) ++ "MiB"]
    if w.exec cRoot ≠ 0 then
      pre ++ [Step.run cRoot, Step.error "Failed to create root (existing partition)."]
    else
      let pre := pre ++ [Step.run cRoot] ++ settleSeq devPath
      let rootDev := detectNewPartitionNode (w.lsblkAt 3) devPath beforeRoot
      if rootDev = "" then
        pre ++ [Step.error "Could not uniquely detect new root partition."]
      else
        let cExt := ["sudo", "mkfs.ext4", "-F", rootDev]
        if w.exec cExt ≠ 0 then
          pre ++ [Step.run cExt, Step.error "Failed to format root."]
        else
          let pre := pre ++ [Step.run cExt,
                             Step.run ["sudo", "e2fsck", "-f", rootDev],
                             Step.log "Mounting root partition..."]
          let cMnt := ["sudo", "mount", rootDev, "/mnt"]
          if w.exec cMnt ≠ 0 then
            pre ++ [Step.run cMnt, Step.error "Failed to mount root at /mnt."]
          else
            pre ++ [Step.run cMnt] ++ recordTargetMountState w rootDev "" ++
              [Step.complete]

/-- BIOS carve branch: no bios_grub exists, so reserve about 2 MiB for
it at the start of the freed region; the region is rejected as too small
before any creation when its end does not exceed start + 2. Then create
and flag bios_grub, check the remainder fits root, create root, format,
mount (fatal on failure), record state and complete. -/
def recreateBiosCarve (w : World) (devPath : String) (startMiB endMiB : ℤ)
    (pre : List Step) : List Step :=
  let biosEndMiB := startMiB + 2
  if biosEndMiB ≥ endMiB then
    pre ++ [Step.error "Selected partition is too small to host bios_grub and root partitions."]
  else
    let beforeBios := childPartitionsSet (w.lsblkAt 0) devPath
    let cBios := ["sudo", w.partedBin, devPath, "--script", "mkpart", "primary",
                  toString startMiB ++ "MiB", toString biosEndMiB ++ "MiB"]
    if w.exec cBios ≠ 0 then
      pre ++ [Step.run cBios, Step.error "Failed to create bios_grub partition."]
    else
      let pre := pre ++ [Step.run cBios] ++ settleSeq devPath
      let biosPart := detectNewPartitionNode (w.lsblkAt 1) devPath beforeBios
      if biosPart = "" then
        pre ++ [Step.error "Could not detect newly created bios_grub partition."]
      else
        let biosNum := partitionNumberFromPath biosPart
        if biosNum = "" then
          pre ++ [Step.error "Could not determine bios_grub partition number."]
        else
          let cFlag := ["sudo", w.partedBin, devPath, "--script", "set", biosNum,
                        "bios_grub", "on"]
          if w.exec cFlag ≠ 0 then
            pre ++ [Step.run cFlag, Step.error "Failed to flag bios_grub partition."]
          else
            recreateBiosCarveRoot w devPath biosEndMiB endMiB (pre ++ [Step.run cFlag,
              Step.log ("Created bios_grub partition: " ++ biosPart)])

/-- The UsePartition strategy (recreateFromSelectedPartition): query and
parse the geometry of the selected partition before any mutation, reject
an EFI run whose selected partition is itself the existing ESP, unmount
and delete the selected partition, then reuse or carve the boot
partition as required by the boot mode. -/
def recreateFromSelectedPartition (w : World) (efiInstall : Bool)
    (targetPartition devPath : String) : List Step :=
  match w.geomFound with
  | none => [Step.error "Could not query selected partition geometry (parted)."]
  | some geom =>
    match parseMiBToBounds geom.1 geom.2 with
    | none => [Step.error "Invalid geometry for selected partition."]
    | some b =>
      let startMiB := b.1
      let endMiB := b.2
      let espCheck := findExistingEsp (w.espRowsAt 0) (w.partedPrintAt 0) devPath
      if efiInstall ∧ espCheck ≠ "" ∧ w.canonical targetPartition = w.canonical espCheck then
        [Step.error "Selected partition is the EFI System Partition. Please choose a different partition for root."]
      else
        let cUm := ["sudo", "umount", "-l", targetPartition]
        let partNum := partitionNumberFromPath targetPartition
        if partNum = "" then
          [Step.run cUm, Step.error "Could not determine selected partition number."]
        else
          let cRm := ["sudo", w.partedBin, devPath, "--script", "rm", partNum]
          if w.exec cRm ≠ 0 then
            [Step.run cUm, Step.run cRm, Step.error "Failed to delete selected partition."]
          else
            let pre := [Step.run cUm, Step.run cRm] ++ settleSeq devPath
            if efiInstall then
              let existingEsp := findExistingEsp (w.espRowsAt 1) (w.partedPrintAt 1) devPath
              if existingEsp ≠ "" then
                recreateEfiReuse w devPath startMiB endMiB existingEsp pre
              else
                recreateEfiCarve w devPath startMiB endMiB pre
            else
              let existingBios := findExistingBiosGrub (w.partedPrintAt 1) devPath
              if existingBios ≠ "" then
                recreateBiosReuse w devPath startMiB endMiB existingBios pre
              else
                recreateBiosCarve w devPath startMiB endMiB pre

/-! ## The orchestrator entry point (InstallerWorker run) -/

/-- InstallerWorker run: fail when parted is missing, delete the
persisted mount state, log, run the safe preflight unmounts, then
dispatch on the selected strategy. -/
def runWorker (w : World) (mode : InstallMode) (efiInstall : Bool)
    (selectedDrive targetPartition : String) : List Step :=
  if w.partedBin = "" then [Step.error "parted not found"]
  else
    let devPath := "/dev/" ++ selectedDrive
    [Step.fileRemove targetStateFilePath,
     Step.log ("efiInstall = " ++ (if efiInstall then "true" else "false")),
     Step.log "Preparing mounts..."] ++
    safePreflightUnmounts w devPath ++
    (match mode with
     | InstallMode.WipeDrive => runWipeDrive w efiInstall devPath
     | InstallMode.UseFreeSpace => createFromFreeSpace w efiInstall targetPartition devPath
     | InstallMode.UsePartition => recreateFromSelectedPartition w efiInstall targetPartition devPath)

/-! ## Trace predicates and witness worlds -/

/-- Is this step a parted mkpart invocation? All partition-creation
commands issued by the engine have the shape
sudo parted dev --script mkpart ... -/
def isMkpartStep : Step → Bool
  | Step.run argv => argv.getD 3 "" = "--script" && argv.getD 4 "" = "mkpart"
  | _ => false

/-- Is this step one of the holder-kill / swapoff / LUKS-close /
VG-deactivate commands? -/
def isHolderKillStep : Step → Bool
  | Step.run argv =>
    argv.contains "fuser" || argv.contains "swapoff" ||
    argv.contains "cryptsetup" || argv.contains "vgchange"
  | _ => false

/-- Is this step an error signal? -/
def isErrorStep : Step → Bool
  | Step.error _ => true
  | _ => false

/-- Is this step a mount-state write? -/
def isStateWriteStep : Step → Bool
  | Step.stateWrite _ _ _ => true
  | _ => false

/-- A base world for the concrete test configurations: parted is found,
every command succeeds, every query is empty. -/
def trivialWorld : World where
  partedBin := "parted"
  exec := fun _ => 0
  lsblkAt := fun _ => []
  lsblkNames := []
  mountRows := []
  fstypeOf := fun _ => ""
  espRowsAt := fun _ => []
  partedPrintAt := fun _ => []
  freeLines := []
  findmntRoot := ""
  procMounts := []
  blkidU := fun _ => ""
  blkidL := fun _ => ""
  lsblkNode := fun _ => []
  canonical := fun s => s
  swapDevs := []
  lvsVg := fun _ => ""
  holdersOf := fun _ => []
  geomFound := none
  qToDouble := fun _ => 0
  stateOpenOk := true

/-- A world in which /dev/sda backs the running root filesystem. -/
def sysDiskWorld : World :=
  { trivialWorld with
    findmntRoot := "/dev/sda1"
    lsblkNode := fun s =>
      if s = "/dev/sda1" then ["sda1", "part", "sda"]
      else if s = "/dev/sda" then ["sda", "disk"]
      else [] }

/-- A world for the WipeDrive runs: every command succeeds and the disk
shows two partitions after partitioning. -/
def wipeWorld : World :=
  { trivialWorld with lsblkNames := ["sdb1", "sdb2"] }

/-- The wipe world in which mounting the new root partition fails while
every other command succeeds. -/
def wipeMountFailWorld : World :=
  { wipeWorld with
    exec := fun c => if c = ["sudo", "mount", "/dev/sdb2", "/mnt"] then 1 else 0 }

/-- A world for the UseFreeSpace runs: the caller passes the explicit
extent 100..150 MiB, the disk has no ESP, and the partition created by
the engine appears as sdb1 in the diff snapshot. -/
def freeWorld : World :=
  { trivialWorld with
    qToDouble := fun s => if s = "100" then (100 : ℚ) else if s = "150" then 150 else 0
    lsblkAt := fun k => if k = 2 then [["sdb1", "part", "sdb"]] else [] }

/-- A world for the UsePartition runs: the selected partition spans
1..400 MiB and the disk carries no ESP and no bios_grub partition. -/
def recreateWorld : World :=
  { trivialWorld with geomFound := some (some 1, some 400) }

/-- A world for the UsePartition runs whose selected partition spans
only 1..3 MiB. -/
def tooSmallWorld : World :=
  { trivialWorld with geomFound := some (some 1, some 3) }

/-- A world for the UsePartition reuse branch: the partition created by
the engine appears as sdb1 in the first diff snapshot. -/
def reuseWorld : World :=
  { trivialWorld with
    lsblkAt := fun k => if k = 1 then [["sdb1", "part", "sdb"]] else [] }

/-- A world in which the parted free print reports one free extent
spanning 100..150 MiB, with no explicit token supplied. -/
def autoFreeWorld : World :=
  { trivialWorld with
    qToDouble := fun s =>
      if s = "100" then (100 : ℚ) else if s = "150" then 150 else if s = "50" then 50 else 0
    freeLines := ["1:100MiB:150MiB:50MiB:free"] }

/-- The part of createFromFreeSpace that follows the choice of an
extent: reject when the parsed end is at most 10 MiB past the parsed
start, otherwise run the EFI or BIOS branch. Both the explicit-token
route and the auto-selection route reduce to this tail (the string m is
the route-specific selection log). -/
def freeSpaceTail (w : World) (efi : Bool) (dev : String) (sq eq2 : ℚ)
    (m : String) : List Step :=
  if eq2 ≤ sq + 10 then
    [Step.log "Searching for free space…", Step.log m,
     Step.error "Selected free space is too small."]
  else if efi then
    createFreeEfi w dev sq eq2 [Step.log "Searching for free space…", Step.log m]
  else
    createFreeBios w dev sq eq2 [Step.log "Searching for free space…", Step.log m]

/-- A world in which every mount command fails (exit 1) while all other
commands succeed. -/
def allMountFailWorld : World :=
  { trivialWorld with
    exec := fun argv => if argv.getD 1 "" = "mount" then 1 else 0 }

/-- A world for the free-space EFI branch with a reusable vfat ESP, in
which both mount commands fail while all others succeed. -/
def freeReuseMountFailWorld : World :=
  { trivialWorld with
    exec := fun argv => if argv.getD 1 "" = "mount" then 1 else 0
    espRowsAt := fun _ => [["sda1", "part", "sdb", "", "", "vfat"]]
    fstypeOf := fun p => if p = "/dev/sda1" then "vfat" else ""
    lsblkAt := fun n => if n = 2 then [["sdb1", "part", "sdb"]] else [] }

/-! ## Helper lemmas -/

/-- Inserting into a duplicate-free list keeps it duplicate-free. -/
theorem qsetInsert_nodup {x : String} {l : List String} (h : l.Nodup) :
    (qsetInsert x l).Nodup := by
  unfold qsetInsert
  split_ifs with hx
  · exact h
  · exact List.nodup_cons.mpr ⟨hx, h⟩

/-- Membership after a QSet insert. -/
theorem qsetInsert_mem {x y : String} {l : List String} :
    y ∈ qsetInsert x l ↔ y = x ∨ y ∈ l := by
  unfold qsetInsert
  split_ifs with hx
  · constructor
    · exact Or.inr
    · rintro (rfl | h) <;> [exact hx; exact h]
  · simp [List.mem_cons]

/-- One scan step keeps the accumulator duplicate-free. -/
theorem childStep_nodup (b : String) (acc cols : List String) (h : acc.Nodup) :
    (childStep b acc cols).Nodup := by
  unfold childStep
  rcases cols with _ | ⟨name, _ | ⟨ty, _ | ⟨pk, rest⟩⟩⟩
  · exact h
  · exact h
  · exact h
  · dsimp only
    split_ifs with hc
    · exact qsetInsert_nodup h
    · exact h

/-- Folding the scan step keeps the accumulator duplicate-free. -/
theorem foldl_childStep_nodup (b : String) :
    ∀ (t : List (List String)) (acc : List String), acc.Nodup →
      (t.foldl (childStep b) acc).Nodup
  | [], _, h => h
  | cols :: rest, acc, h =>
    foldl_childStep_nodup b rest (childStep b acc cols) (childStep_nodup b acc cols h)

/-- The child-partition set never contains duplicates. -/
theorem childPartitionsSet_nodup (table : List (List String)) (devPath : String) :
    (childPartitionsSet table devPath).Nodup :=
  foldl_childStep_nodup (baseNameOf devPath) table [] List.nodup_nil

/-- The QSet difference as a finite set. -/
theorem qsetDiff_toFinset (a b : List String) :
    (qsetDiff a b).toFinset = a.toFinset \ b.toFinset := by
  ext x
  simp [qsetDiff, List.mem_filter]

/-- The QSet difference of a duplicate-free list stays duplicate-free. -/
theorem qsetDiff_nodup {a : List String} (b : List String) (h : a.Nodup) :
    (qsetDiff a b).Nodup :=
  h.filter _

/-! ## Claim theorems -/

/-- C3 counterexample: the claim asserts success for every parsable pair
with start before end, but the pair start 6/5, end 19/10 has
start strictly below end while parseMiBToBounds fails, because the
rounded range ceil 6/5 = 2, floor 19/10 = 1 is empty. -/
theorem parseMiBToBounds_start_lt_end_counterexample :
    ((6 : ℚ)/5 < 19/10) ∧ parseMiBToBounds (some (6/5)) (some (19/10)) = none := by
  constructor
  · norm_num
  · have h1 : (⌈(6/5 : ℚ)⌉ : ℤ) = 2 := by
      rw [Int.ceil_eq_iff]
      norm_num
    have h2 : (⌊(19/10 : ℚ)⌋ : ℤ) = 1 := by norm_num
    simp [parseMiBToBounds, h1, h2]

/-- C3 (amended): parseMiBToBounds succeeds exactly when both strings
parse and the clamped ceiling of the start is strictly below the floor
of the end, in which case it returns exactly that clamped ceiling and
floor; start strictly below end alone does not suffice. -/
theorem parseMiBToBounds_characterization (s e : Option ℚ) (p : ℤ × ℤ) :
    parseMiBToBounds s e = some p ↔
      ∃ sv ev, s = some sv ∧ e = some ev ∧
        p = (max 1 ⌈sv⌉, ⌊ev⌋) ∧ max 1 ⌈sv⌉ < ⌊ev⌋ := by
  rcases s with _ | sv
  · simp [parseMiBToBounds]
  · rcases e with _ | ev
    · simp [parseMiBToBounds]
    · have hmax : (if (⌈sv⌉ : ℤ) < 1 then (1 : ℤ) else ⌈sv⌉) = max 1 ⌈sv⌉ := by
        rcases le_or_lt 1 (⌈sv⌉ : ℤ) with h | h
        · rw [if_neg (not_lt.mpr h), max_eq_right h]
        · rw [if_pos h, max_eq_left h.le]
      simp only [parseMiBToBounds, hmax]
      by_cases h : max 1 ⌈sv⌉ < ⌊ev⌋
      · simp only [if_pos h, Option.some.injEq]
        constructor
        · intro hp
          exact ⟨sv, ev, rfl, rfl, hp.symm, h⟩
        · rintro ⟨sv2, ev2, h1, h2, h3, h4⟩
          cases Option.some.injEq .. ▸ h1
          simp_all
      · simp only [if_neg h]
        constructor
        · intro hp; exact absurd hp (by simp)
        · rintro ⟨sv2, ev2, h1, h2, h3, h4⟩
          injection h1 with h1
          injection h2 with h2
          subst h1; subst h2
          exact absurd h4 h

/-- C1: for every disk snapshot pair, when the set difference of the
after and before child-partition kernel-name sets has exactly one
element, detectNewPartitionNode returns that element as a /dev path, and
when the difference has zero or two or more elements it returns the
empty (unidentifiable) result. -/
theorem detectNewPartitionNode_diff_spec (table : List (List String)) (devPath : String)
    (before : List String) :
    (((childPartitionsSet table devPath).toFinset \ before.toFinset).card = 1 →
      ∃ x, (childPartitionsSet table devPath).toFinset \ before.toFinset = {x} ∧
        detectNewPartitionNode table devPath before = "/dev/" ++ x)
  ∧ (((childPartitionsSet table devPath).toFinset \ before.toFinset).card ≠ 1 →
      detectNewPartitionNode table devPath before = "") := by
  have hnd : (qsetDiff (childPartitionsSet table devPath) before).Nodup :=
    qsetDiff_nodup before (childPartitionsSet_nodup table devPath)
  have hfin : (qsetDiff (childPartitionsSet table devPath) before).toFinset =
      (childPartitionsSet table devPath).toFinset \ before.toFinset :=
    qsetDiff_toFinset _ _
  have hcard : (qsetDiff (childPartitionsSet table devPath) before).length =
      ((childPartitionsSet table devPath).toFinset \ before.toFinset).card := by
    rw [← hfin, List.toFinset_card_of_nodup hnd]
  constructor
  · intro h
    have hlen : (qsetDiff (childPartitionsSet table devPath) before).length = 1 := by
      rw [hcard]; exact h
    obtain ⟨x, hx⟩ := List.length_eq_one.mp hlen
    refine ⟨x, ?_, ?_⟩
    · rw [← hfin, hx]
      simp
    · unfold detectNewPartitionNode
      simp [hx]
  · intro h
    have hlen : (qsetDiff (childPartitionsSet table devPath) before).length ≠ 1 := by
      rw [hcard]; exact h
    unfold detectNewPartitionNode
    simp only [if_neg hlen]

/-- C1 witness: on a concrete snapshot in which sdb1 and sdb2 existed
before and still are the only children, the difference is empty and the
detector reports the unidentifiable result. -/
theorem detectNewPartitionNode_diff_spec_witness :
    ((childPartitionsSet [["sdb1", "part", "sdb"], ["sdb2", "part", "sdb"]] "/dev/sdb").toFinset \
        ["sdb1", "sdb2"].toFinset).card ≠ 1 ∧
    detectNewPartitionNode [["sdb1", "part", "sdb"], ["sdb2", "part", "sdb"]] "/dev/sdb"
        ["sdb1", "sdb2"] = "" :=
  ⟨by decide,
   (detectNewPartitionNode_diff_spec [["sdb1", "part", "sdb"], ["sdb2", "part", "sdb"]]
     "/dev/sdb" ["sdb1", "sdb2"]).2 (by decide)⟩

/-- C8: isSystemDisk is true exactly when the root source resolves, both
base-disk walks succeed, and the two base disks have equal canonical
paths; it is false in every other case, in particular whenever the root
source is unknown or either base-disk resolution fails. -/
theorem isSystemDisk_canonical_iff (w : World) (devPath : String) :
    isSystemDisk w devPath = true ↔
      (rootSourceDevice w ≠ "" ∧
       resolveBaseDisk w.lsblkNode (rootSourceDevice w) ≠ "" ∧
       resolveBaseDisk w.lsblkNode devPath ≠ "" ∧
       w.canonical (resolveBaseDisk w.lsblkNode (rootSourceDevice w)) =
         w.canonical (resolveBaseDisk w.lsblkNode devPath)) := by
  unfold isSystemDisk
  dsimp only
  split_ifs with h1 h2
  · simp [h1]
  · constructor
    · intro h; exact absurd h (by simp)
    · rintro ⟨_, hr, ht, _⟩
      rcases h2 with h | h
      · exact absurd h hr
      · exact absurd h ht
  · push_neg at h2
    simp [h1, h2.1, h2.2, decide_eq_true_iff]

/-- C2: on a system disk, the detach operation performs exactly the
three staging unmounts, a warning and a settle, and never issues a
holder-kill, swapoff, LUKS-close or VG-deactivate command; on a
non-system disk it issues a udisksctl unmount for every child partition
of the disk, in particular for any externally mounted one. -/
theorem bestEffortDetachDevice_system_guard (w : World) (devPath : String) :
    (isSystemDisk w devPath = true →
      bestEffortDetachDevice w devPath =
        stagingUnmounts ++
          [Step.warn ("[detach] Target is system disk; skipping device-wide unmounts/kills for "
              ++ devPath),
           Step.run settleCmd] ∧
      ∀ s ∈ bestEffortDetachDevice w devPath, isHolderKillStep s = false)
  ∧ (isSystemDisk w devPath = false →
      ∀ pn ∈ childPartitionsSet (w.lsblkAt 0) devPath,
        Step.run ["sudo", "udisksctl", "unmount", "-b", "/dev/" ++ pn] ∈
          bestEffortDetachDevice w devPath) := by
  constructor
  · intro h
    have he : bestEffortDetachDevice w devPath =
        stagingUnmounts ++
          [Step.warn ("[detach] Target is system disk; skipping device-wide unmounts/kills for "
              ++ devPath),
           Step.run settleCmd] := by
      unfold bestEffortDetachDevice
      rw [if_pos h]
    refine ⟨he, ?_⟩
    intro s hs
    rw [he] at hs
    simp only [stagingUnmounts, settleCmd, List.mem_append, List.mem_cons,
      List.not_mem_nil, or_false] at hs
    rcases hs with ((rfl | rfl | rfl) | rfl | rfl) <;> rfl
  · intro h pn hpn
    unfold bestEffortDetachDevice
    rw [if_neg (by simp [h])]
    simp only [List.mem_append]
    left; left; left; left; left; left; right
    exact List.mem_map.mpr ⟨pn, hpn, rfl⟩

/-- C2 witness: in the concrete world whose running root is backed by
/dev/sda, detaching /dev/sda yields exactly the staging unmounts, the
warning and the settle. -/
theorem bestEffortDetachDevice_system_guard_witness :
    bestEffortDetachDevice sysDiskWorld "/dev/sda" =
      stagingUnmounts ++
        [Step.warn ("[detach] Target is system disk; skipping device-wide unmounts/kills for "
            ++ "/dev/sda"),
         Step.run settleCmd] :=
  ((bestEffortDetachDevice_system_guard sysDiskWorld "/dev/sda").1 (by decide)).1

/-- Explicit trace of a successful EFI WipeDrive run: the hypotheses
state that the checked commands succeed and lsblk reports two
partitions. -/
theorem runWipeDrive_efi_trace (w : World) (dev p1 p2 : String)
    (hml : w.exec ["sudo", w.partedBin, dev, "--script", "mklabel", "gpt"] = 0)
    (h1 : w.exec ["sudo", w.partedBin, dev, "--script", "mkpart", "primary", "fat32",
                  "1MiB", "513MiB"] = 0)
    (h2 : w.exec ["sudo", w.partedBin, dev, "--script", "name", "1", "ESP"] = 0)
    (h3 : w.exec ["sudo", w.partedBin, dev, "--script", "set", "1", "esp", "on"] = 0)
    (h4 : w.exec ["sudo", w.partedBin, dev, "--script", "mkpart", "primary", "ext4",
                  "513MiB", "100%"] = 0)
    (hparts : w.lsblkNames = [p1, p2])
    (hfat : w.exec ["sudo", "mkfs.fat", "-F32", "/dev/" ++ p1] = 0)
    (hext : w.exec ["sudo", "mkfs.ext4", "-F", "/dev/" ++ p2] = 0) :
    runWipeDrive w true dev =
      [Step.log "Preparing drive for EFI (GPT + ESP + root)",
       Step.run ["sudo", w.partedBin, dev, "--script", "mklabel", "gpt"]] ++
      settleSeq dev ++
      [Step.run ["sudo", w.partedBin, dev, "--script", "mkpart", "primary", "fat32",
                 "1MiB", "513MiB"],
       Step.run ["sudo", w.partedBin, dev, "--script", "name", "1", "ESP"],
       Step.run ["sudo", w.partedBin, dev, "--script", "set", "1", "esp", "on"],
       Step.run ["sudo", w.partedBin, dev, "--script", "mkpart", "primary", "ext4",
                 "513MiB", "100%"]] ++
      settleSeq dev ++
      [Step.log "Formatting ESP as FAT32...",
       Step.run ["sudo", "mkfs.fat", "-F32", "/dev/" ++ p1],
       Step.log "Formatting root as ext4...",
       Step.run ["sudo", "mkfs.ext4", "-F", "/dev/" ++ p2],
       Step.run ["sudo", "e2fsck", "-f", "/dev/" ++ p2],
       Step.log "Mounting new partitions...",
       Step.run ["sudo", "mount", "/dev/" ++ p2, "/mnt"],
       Step.run ["sudo", "mkdir", "-p", "/mnt/boot/efi"],
       Step.run ["sudo", "mount", "/dev/" ++ p1, "/mnt/boot/efi"]] ++
      recordTargetMountState w ("/dev/" ++ p2) ("/dev/" ++ p1) ++
      [Step.complete] := by
  unfold runWipeDrive wipeFinish wipeFinishRoot
  simp [hml, h1, h2, h3, h4, hparts, hfat, hext]

/-- C4 counterexample: in a successful EFI WipeDrive run the engine
emits completion, yet the only two mkpart commands are the ESP at
1MiB-513MiB and the root at 513MiB-100 percent; no root creation ending
one MiB before the disk end is ever issued (here 999MiB for a
1000 MiB disk; the executed WipeDrive path never even queries the disk
size), contradicting the claimed 513..S-1 root span. -/
theorem runWipeDrive_no_margin_counterexample :
    Step.complete ∈ runWipeDrive wipeWorld true "/dev/sdb" ∧
    (runWipeDrive wipeWorld true "/dev/sdb").filter isMkpartStep =
      [Step.run ["sudo", "parted", "/dev/sdb", "--script", "mkpart", "primary", "fat32",
                 "1MiB", "513MiB"],
       Step.run ["sudo", "parted", "/dev/sdb", "--script", "mkpart", "primary", "ext4",
                 "513MiB", "100%"]] ∧
    Step.run ["sudo", "parted", "/dev/sdb", "--script", "mkpart", "primary", "ext4",
              "513MiB", "999MiB"] ∉ runWipeDrive wipeWorld true "/dev/sdb" := by
  refine ⟨?_, ?_, ?_⟩ <;> decide

/-- C4 (amended): a successful EFI WipeDrive run creates exactly two
partitions: partition 1 from 1MiB to 513MiB formatted fat32 with the esp
flag set, and partition 2 formatted ext4 from 513MiB to 100 percent of
the disk (the end of the disk, with no one-MiB margin in this executed
path), after which completion is signalled. -/
theorem runWipeDrive_efi_layout (w : World) (dev p1 p2 : String)
    (hml : w.exec ["sudo", w.partedBin, dev, "--script", "mklabel", "gpt"] = 0)
    (h1 : w.exec ["sudo", w.partedBin, dev, "--script", "mkpart", "primary", "fat32",
                  "1MiB", "513MiB"] = 0)
    (h2 : w.exec ["sudo", w.partedBin, dev, "--script", "name", "1", "ESP"] = 0)
    (h3 : w.exec ["sudo", w.partedBin, dev, "--script", "set", "1", "esp", "on"] = 0)
    (h4 : w.exec ["sudo", w.partedBin, dev, "--script", "mkpart", "primary", "ext4",
                  "513MiB", "100%"] = 0)
    (hparts : w.lsblkNames = [p1, p2])
    (hfat : w.exec ["sudo", "mkfs.fat", "-F32", "/dev/" ++ p1] = 0)
    (hext : w.exec ["sudo", "mkfs.ext4", "-F", "/dev/" ++ p2] = 0) :
    (runWipeDrive w true dev).filter isMkpartStep =
      [Step.run ["sudo", w.partedBin, dev, "--script", "mkpart", "primary", "fat32",
                 "1MiB", "513MiB"],
       Step.run ["sudo", w.partedBin, dev, "--script", "mkpart", "primary", "ext4",
                 "513MiB", "100%"]] ∧
    Step.run ["sudo", w.partedBin, dev, "--script", "set", "1", "esp", "on"] ∈
      runWipeDrive w true dev ∧
    Step.run ["sudo", "mkfs.fat", "-F32", "/dev/" ++ p1] ∈ runWipeDrive w true dev ∧
    Step.run ["sudo", "mkfs.ext4", "-F", "/dev/" ++ p2] ∈ runWipeDrive w true dev ∧
    Step.complete ∈ runWipeDrive w true dev := by
  rw [runWipeDrive_efi_trace w dev p1 p2 hml h1 h2 h3 h4 hparts hfat hext]
  refine ⟨?_, ?_, ?_, ?_, ?_⟩ <;>
    simp [settleSeq, settleCmd, recordTargetMountState, isMkpartStep, List.filter_append,
      List.filter_cons, List.filter_nil, List.getD, apply_ite (List.filter isMkpartStep)]

/-- C4 witness: the amended layout theorem applied to the concrete wipe
world. -/
theorem runWipeDrive_efi_layout_witness :
    Step.complete ∈ runWipeDrive wipeWorld true "/dev/sdb" :=
  (runWipeDrive_efi_layout wipeWorld "/dev/sdb" "sdb1" "sdb2"
    rfl rfl rfl rfl rfl rfl rfl rfl).2.2.2.2

/-- A /dev path built by prefixing a kernel name is never the empty
string. -/
theorem devNodeNeEmpty (p : String) : ("/dev/" ++ p) ≠ "" := by
  cases p with
  | mk l =>
    intro h
    rw [show "/dev/" ++ String.mk l = String.mk ('/' :: 'd' :: 'e' :: 'v' :: '/' :: l)
        from rfl] at h
    exact absurd (congrArg String.data h) (by simp)

/-- Completion in the EFI reuse branch implies a mount-state write
(or completion was already in the prefix). -/
theorem recreateEfiReuse_complete_write (w : World) (devPath : String) (s e : ℤ)
    (esp : String) (pre : List Step) (hopen : w.stateOpenOk = true)
    (hc : Step.complete ∈ recreateEfiReuse w devPath s e esp pre) :
    Step.complete ∈ pre ∨
      (recreateEfiReuse w devPath s e esp pre).any isStateWriteStep = true := by
  revert hc
  simp only [recreateEfiReuse, recordTargetMountState, hopen, if_true, settleSeq, settleCmd]
  split_ifs <;> intro hc <;>
    first
    | (left; simpa using hc)
    | (right; simp [isStateWriteStep])

/-- Completion in the root phase of the EFI carve branch implies a
mount-state write (or completion was already in the prefix). -/
theorem recreateEfiCarveRoot_complete_write (w : World) (devPath : String) (e : ℤ)
    (espEnd espPart : String) (pre : List Step) (hopen : w.stateOpenOk = true)
    (hc : Step.complete ∈ recreateEfiCarveRoot w devPath e espEnd espPart pre) :
    Step.complete ∈ pre ∨
      (recreateEfiCarveRoot w devPath e espEnd espPart pre).any isStateWriteStep = true := by
  revert hc
  simp only [recreateEfiCarveRoot, recordTargetMountState, hopen, if_true, settleSeq, settleCmd]
  split_ifs <;> intro hc <;>
    first
    | (left; simpa using hc)
    | (right; simp [isStateWriteStep])

/-- Completion in the EFI carve branch implies a mount-state write
(or completion was already in the prefix). -/
theorem recreateEfiCarve_complete_write (w : World) (devPath : String) (s e : ℤ)
    (pre : List Step) (hopen : w.stateOpenOk = true)
    (hc : Step.complete ∈ recreateEfiCarve w devPath s e pre) :
    Step.complete ∈ pre ∨
      (recreateEfiCarve w devPath s e pre).any isStateWriteStep = true := by
  revert hc
  simp only [recreateEfiCarve, settleSeq, settleCmd]
  split_ifs <;> intro hc
  · left; simpa using hc
  · left; simpa using hc
  · left; simpa using hc
  · rcases recreateEfiCarveRoot_complete_write w devPath e _ _ _ hopen hc with h | h
    · left; simpa using h
    · right; exact h

/-- Completion in the BIOS reuse branch implies a mount-state write
(or completion was already in the prefix). -/
theorem recreateBiosReuse_complete_write (w : World) (devPath : String) (s e : ℤ)
    (bios : String) (pre : List Step) (hopen : w.stateOpenOk = true)
    (hc : Step.complete ∈ recreateBiosReuse w devPath s e bios pre) :
    Step.complete ∈ pre ∨
      (recreateBiosReuse w devPath s e bios pre).any isStateWriteStep = true := by
  revert hc
  simp only [recreateBiosReuse, recordTargetMountState, hopen, if_true, settleSeq, settleCmd]
  split_ifs <;> intro hc <;>
    first
    | (left; simpa using hc)
    | (right; simp [isStateWriteStep])

/-- Completion in the root phase of the BIOS carve branch implies a
mount-state write (or completion was already in the prefix). -/
theorem recreateBiosCarveRoot_complete_write (w : World) (devPath : String)
    (bEnd e : ℤ) (pre : List Step) (hopen : w.stateOpenOk = true)
    (hc : Step.complete ∈ recreateBiosCarveRoot w devPath bEnd e pre) :
    Step.complete ∈ pre ∨
      (recreateBiosCarveRoot w devPath bEnd e pre).any isStateWriteStep = true := by
  revert hc
  simp only [recreateBiosCarveRoot, recordTargetMountState, hopen, if_true, settleSeq, settleCmd]
  split_ifs <;> intro hc <;>
    first
    | (left; simpa using hc)
    | (right; simp [isStateWriteStep])

/-- Completion in the BIOS carve branch implies a mount-state write
(or completion was already in the prefix). -/
theorem recreateBiosCarve_complete_write (w : World) (devPath : String) (s e : ℤ)
    (pre : List Step) (hopen : w.stateOpenOk = true)
    (hc : Step.complete ∈ recreateBiosCarve w devPath s e pre) :
    Step.complete ∈ pre ∨
      (recreateBiosCarve w devPath s e pre).any isStateWriteStep = true := by
  revert hc
  simp only [recreateBiosCarve, settleSeq, settleCmd]
  split_ifs <;> intro hc
  · left; simpa using hc
  · left; simpa using hc
  · left; simpa using hc
  · left; simpa using hc
  · left; simpa using hc
  · rcases recreateBiosCarveRoot_complete_write w devPath (s + 2) e _ hopen hc with h | h
    · left; simpa using h
    · right; exact h

/-- Completion of the UsePartition strategy implies a mount-state
write somewhere in its trace. -/
theorem recreate_complete_write (w : World) (efi : Bool) (tp devPath : String)
    (hopen : w.stateOpenOk = true)
    (hc : Step.complete ∈ recreateFromSelectedPartition w efi tp devPath) :
    (recreateFromSelectedPartition w efi tp devPath).any isStateWriteStep = true := by
  revert hc
  unfold recreateFromSelectedPartition
  rcases hg : w.geomFound with _ | geom <;> dsimp only
  · intro hc; simp at hc
  · rcases hpb : parseMiBToBounds geom.1 geom.2 with _ | b <;> dsimp only
    · intro hc; simp at hc
    · split_ifs with h1 h2 h3 h4 <;> intro hc
      · simp at hc
      · simp at hc
      · simp at hc
      · rcases recreateEfiReuse_complete_write w devPath b.1 b.2 _ _ hopen hc with h | h
        · simp [settleSeq, settleCmd] at h
        · exact h
      · rcases recreateEfiCarve_complete_write w devPath b.1 b.2 _ hopen hc with h | h
        · simp [settleSeq, settleCmd] at h
        · exact h
      · rcases recreateBiosReuse_complete_write w devPath b.1 b.2 _ _ hopen hc with h | h
        · simp [settleSeq, settleCmd] at h
        · exact h
      · rcases recreateBiosCarve_complete_write w devPath b.1 b.2 _ hopen hc with h | h
        · simp [settleSeq, settleCmd] at h
        · exact h

/-- C5 counterexample: a successful UseFreeSpace run (BIOS mode, explicit
extent 100..150 MiB) emits the completion signal yet never writes the
mount-state file, contradicting the claim that the state is written at
every successful completion. -/
theorem createFromFreeSpace_no_state_write_counterexample :
    Step.complete ∈ createFromFreeSpace freeWorld false "__FREE__:100:150" "/dev/sdb" ∧
    (createFromFreeSpace freeWorld false "__FREE__:100:150" "/dev/sdb").filter
      isStateWriteStep = [] := by
  have hm1 : miBtok (100 : ℚ) = "100MiB" := by
    unfold miBtok
    rw [show ⌊(100 : ℚ) + 1/2⌋ = (100 : ℤ) from by norm_num]
    decide
  have hm2 : miBtok (150 : ℚ) = "150MiB" := by
    unfold miBtok
    rw [show ⌊(150 : ℚ) + 1/2⌋ = (150 : ℤ) from by norm_num]
    decide
  have hm3 : miBtok ((150 : ℚ) - 1) = "149MiB" := by
    unfold miBtok
    rw [show ⌊(150 : ℚ) - 1 + 1/2⌋ = (149 : ℤ) from by norm_num]
    decide
  have hq1 : freeWorld.qToDouble (chRemove "MiB" "100MiB") = 100 := rfl
  have hq2 : freeWorld.qToDouble (chRemove "MiB" "150MiB") = 150 := rfl
  have h10 : ¬ ((150 : ℚ) ≤ 100 + 10) := by norm_num
  have he : createFromFreeSpace freeWorld false "__FREE__:100:150" "/dev/sdb" =
      createFreeBios freeWorld "/dev/sdb" 100 150
        [Step.log "Searching for free space…",
         Step.log ("Using selected free extent: " ++ "100MiB" ++ " → " ++ "150MiB")] := by
    unfold createFromFreeSpace
    rw [show selExtent freeWorld "__FREE__:100:150" = ((100 : ℚ), (150 : ℚ)) from rfl]
    dsimp only
    rw [if_pos (show (100 : ℚ) > 0 ∧ (150 : ℚ) > 100 by norm_num)]
    dsimp only
    rw [hm1, hm2, hq1, hq2, if_neg h10]
    simp
  rw [he]
  unfold createFreeBios
  rw [hm1, hm3]
  exact ⟨by decide, by decide⟩

/-- C5 (amended): the persisted mount-state file is deleted at the start
of every run (whenever parted is found at all); the WipeDrive strategy
writes the state (root plus esp key in EFI mode) before signalling
completion, and every completing UsePartition trace contains a
mount-state write; the UseFreeSpace strategy however completes without
writing the state. -/
theorem mountState_lifecycle :
    (∀ (w : World) (mode : InstallMode) (efi : Bool) (sd tp : String),
      w.partedBin ≠ "" →
      ∃ rest, runWorker w mode efi sd tp = Step.fileRemove targetStateFilePath :: rest)
  ∧ (∀ (w : World) (dev p1 p2 : String),
      w.exec ["sudo", w.partedBin, dev, "--script", "mklabel", "gpt"] = 0 →
      w.exec ["sudo", w.partedBin, dev, "--script", "mkpart", "primary", "fat32",
              "1MiB", "513MiB"] = 0 →
      w.exec ["sudo", w.partedBin, dev, "--script", "name", "1", "ESP"] = 0 →
      w.exec ["sudo", w.partedBin, dev, "--script", "set", "1", "esp", "on"] = 0 →
      w.exec ["sudo", w.partedBin, dev, "--script", "mkpart", "primary", "ext4",
              "513MiB", "100%"] = 0 →
      w.lsblkNames = [p1, p2] →
      w.exec ["sudo", "mkfs.fat", "-F32", "/dev/" ++ p1] = 0 →
      w.exec ["sudo", "mkfs.ext4", "-F", "/dev/" ++ p2] = 0 →
      w.stateOpenOk = true →
      Step.stateWrite targetStateFilePath ("/dev/" ++ p2) (some ("/dev/" ++ p1)) ∈
        runWipeDrive w true dev ∧
      Step.complete ∈ runWipeDrive w true dev)
  ∧ (∀ (w : World) (efi : Bool) (tp dev : String),
      w.stateOpenOk = true →
      Step.complete ∈ recreateFromSelectedPartition w efi tp dev →
      (recreateFromSelectedPartition w efi tp dev).any isStateWriteStep = true) := by
  refine ⟨?_, ?_, ?_⟩
  · intro w mode efi sd tp hp
    unfold runWorker
    rw [if_neg hp]
    exact ⟨_, rfl⟩
  · intro w dev p1 p2 hml h1 h2 h3 h4 hparts hfat hext hopen
    rw [runWipeDrive_efi_trace w dev p1 p2 hml h1 h2 h3 h4 hparts hfat hext]
    unfold recordTargetMountState
    rw [if_pos hopen, if_neg (devNodeNeEmpty p1)]
    exact ⟨by simp, by simp⟩
  · exact fun w efi tp dev hopen hc => recreate_complete_write w efi tp dev hopen hc

/-- C5 witness: in the trivial world the run starts by deleting the
mount-state file. -/
theorem mountState_lifecycle_witness :
    ∃ rest, runWorker trivialWorld InstallMode.WipeDrive true "sdb" "" =
      Step.fileRemove targetStateFilePath :: rest :=
  mountState_lifecycle.1 trivialWorld InstallMode.WipeDrive true "sdb" "" (by decide)

/-- C6 counterexample: in EFI mode with no reusable ESP, a freed region
of 1..400 MiB is smaller than the 512 MiB boot partition plus one MiB,
yet the engine attempts the ESP creation mutation without any prior
error: no too-small precheck exists on the EFI path. -/
theorem recreateEfi_no_size_check_counterexample :
    ((400 : ℤ) - 1 < 512 + 1) ∧
    (recreateFromSelectedPartition recreateWorld true "/dev/sdb3" "/dev/sdb").any
      isMkpartStep = true ∧
    ((recreateFromSelectedPartition recreateWorld true "/dev/sdb3" "/dev/sdb").takeWhile
      (fun s => !(isMkpartStep s))).filter isErrorStep = [] := by
  have hc1 : (⌈(1 : ℚ)⌉ : ℤ) = 1 := by
    rw [Int.ceil_eq_iff]
    norm_num
  have hf1 : (⌊(400 : ℚ)⌋ : ℤ) = 400 := by norm_num
  have hpb : parseMiBToBounds (some 1) (some 400) = some (1, 400) := by
    simp [parseMiBToBounds, hc1, hf1]
  have he : recreateFromSelectedPartition recreateWorld true "/dev/sdb3" "/dev/sdb" =
      recreateEfiCarve recreateWorld "/dev/sdb" 1 400
        ([Step.run ["sudo", "umount", "-l", "/dev/sdb3"],
          Step.run ["sudo", "parted", "/dev/sdb", "--script", "rm", "3"]] ++
         settleSeq "/dev/sdb") := by
    unfold recreateFromSelectedPartition
    rw [show recreateWorld.geomFound = some (some (1 : ℚ), some (400 : ℚ)) from rfl]
    dsimp only
    rw [hpb]
    decide
  rw [he]
  exact ⟨by decide, by decide, by decide⟩

/-- C6 (amended): the explicit too-small precheck exists only on the
BIOS carve path: when no bios_grub partition is reusable and the freed
region holds at most the 2 MiB boot reservation, the plan stops with the
too-small error before issuing any partition-creation command and never
completes; the EFI carve path performs no such check (see the
counterexample). -/
theorem recreateBios_too_small_check (w : World) (tp dev : String)
    (g : Option ℚ × Option ℚ) (sM eM : ℤ)
    (hg : w.geomFound = some g)
    (hpb : parseMiBToBounds g.1 g.2 = some (sM, eM))
    (hnum : partitionNumberFromPath tp ≠ "")
    (hrm : w.exec ["sudo", w.partedBin, dev, "--script", "rm",
                   partitionNumberFromPath tp] = 0)
    (hbios : findExistingBiosGrub (w.partedPrintAt 1) dev = "")
    (hsmall : sM + 2 ≥ eM) :
    recreateFromSelectedPartition w false tp dev =
      [Step.run ["sudo", "umount", "-l", tp],
       Step.run ["sudo", w.partedBin, dev, "--script", "rm", partitionNumberFromPath tp]] ++
      settleSeq dev ++
      [Step.error "Selected partition is too small to host bios_grub and root partitions."] ∧
    (recreateFromSelectedPartition w false tp dev).any isMkpartStep = false ∧
    Step.complete ∉ recreateFromSelectedPartition w false tp dev := by
  have he : recreateFromSelectedPartition w false tp dev =
      [Step.run ["sudo", "umount", "-l", tp],
       Step.run ["sudo", w.partedBin, dev, "--script", "rm", partitionNumberFromPath tp]] ++
      settleSeq dev ++
      [Step.error "Selected partition is too small to host bios_grub and root partitions."] := by
    unfold recreateFromSelectedPartition recreateBiosCarve
    rw [hg]
    dsimp only
    rw [hpb]
    dsimp only
    simp [hnum, hrm, hbios, hsmall, settleSeq]
  refine ⟨he, ?_, ?_⟩
  · rw [he]
    simp [isMkpartStep, settleSeq, settleCmd]
  · rw [he]
    simp [settleSeq, settleCmd]

/-- C6 witness: the BIOS too-small check fires on the concrete
1..3 MiB selected partition. -/
theorem recreateBios_too_small_check_witness :
    Step.complete ∉ recreateFromSelectedPartition tooSmallWorld false "/dev/sdb3" "/dev/sdb" :=
  (recreateBios_too_small_check tooSmallWorld "/dev/sdb3" "/dev/sdb"
    (some 1, some 3) 1 3 rfl
    (by
      have hc1 : (⌈(1 : ℚ)⌉ : ℤ) = 1 := by
        rw [Int.ceil_eq_iff]
        norm_num
      have hf1 : (⌊(3 : ℚ)⌋ : ℤ) = 3 := by norm_num
      simp [parseMiBToBounds, hc1, hf1])
    (by decide) rfl rfl (by decide)).2.2

/-- The format-and-mount tail of the EFI free-space branch only extends
its prefix. -/
theorem freeEfiFinish_pre (w : World) (b : Bool) (esp root : String) (pre : List Step) :
    pre <+: freeEfiFinish w b esp root pre := by
  unfold freeEfiFinish
  dsimp only
  split_ifs <;> dsimp only <;> (try simp only [List.append_assoc]) <;>
    exact List.prefix_append _ _

/-- The new-ESP continuation of the EFI free-space branch only extends
its prefix. -/
theorem createFreeEfiNew_pre (w : World) (devPath : String) (endMiB : ℚ)
    (espEnd : String) (beforeEsp : List String) (pre : List Step) :
    pre <+: createFreeEfiNew w devPath endMiB espEnd beforeEsp pre := by
  unfold createFreeEfiNew
  dsimp only
  split_ifs <;>
    first
    | (try simp only [List.append_assoc]
       exact List.prefix_append _ _)
    | (refine List.IsPrefix.trans ?_ (freeEfiFinish_pre _ _ _ _ _)
       try simp only [List.append_assoc]
       exact List.prefix_append _ _)

/-- C7 counterexample: in EFI mode with the explicit extent
100..150 MiB (50 MiB, far below the 512 MiB an ESP needs), the engine
still issues the ESP creation command spanning 100MiB..612MiB: no
EFI minimum-size check precedes creation. -/
theorem createFromFreeSpace_efi_no_min_check_counterexample :
    ((150 : ℚ) - 100 < 512) ∧
    Step.run ["sudo", "parted", "/dev/sdb", "--script", "mkpart", "primary", "fat32",
              "100MiB", "612MiB"] ∈
      createFromFreeSpace freeWorld true "__FREE__:100:150" "/dev/sdb" := by
  have hm1 : miBtok (100 : ℚ) = "100MiB" := by
    unfold miBtok
    rw [show ⌊(100 : ℚ) + 1/2⌋ = (100 : ℤ) from by norm_num]
    decide
  have hm2 : miBtok (150 : ℚ) = "150MiB" := by
    unfold miBtok
    rw [show ⌊(150 : ℚ) + 1/2⌋ = (150 : ℤ) from by norm_num]
    decide
  have hm3 : miBtok ((150 : ℚ) - 1) = "149MiB" := by
    unfold miBtok
    rw [show ⌊(150 : ℚ) - 1 + 1/2⌋ = (149 : ℤ) from by norm_num]
    decide
  have hm4 : miBtok ((100 : ℚ) + 512) = "612MiB" := by
    unfold miBtok
    rw [show ⌊(100 : ℚ) + 512 + 1/2⌋ = (612 : ℤ) from by norm_num]
    decide
  have hq1 : freeWorld.qToDouble (chRemove "MiB" "100MiB") = 100 := rfl
  have hq2 : freeWorld.qToDouble (chRemove "MiB" "150MiB") = 150 := rfl
  have h10 : ¬ ((150 : ℚ) ≤ 100 + 10) := by norm_num
  have he : createFromFreeSpace freeWorld true "__FREE__:100:150" "/dev/sdb" =
      createFreeEfi freeWorld "/dev/sdb" 100 150
        [Step.log "Searching for free space…",
         Step.log ("Using selected free extent: " ++ "100MiB" ++ " → " ++ "150MiB")] := by
    unfold createFromFreeSpace
    rw [show selExtent freeWorld "__FREE__:100:150" = ((100 : ℚ), (150 : ℚ)) from rfl]
    dsimp only
    rw [if_pos (show (100 : ℚ) > 0 ∧ (150 : ℚ) > 100 by norm_num)]
    dsimp only
    rw [hm1, hm2, hq1, hq2, if_neg h10]
    simp
  refine ⟨by norm_num, ?_⟩
  rw [he]
  unfold createFreeEfi createFreeEfiNew freeEfiFinish
  rw [hm1, hm3, hm4]
  decide

/-- C7 (amended): every chosen extent, explicit or auto-selected,
reduces to the same post-choice tail (clauses one and two); on that
tail an extent whose end is at most 10 MiB past its start is rejected
with an error before any partition mutation and the run never completes
(clause three); but in EFI mode there is no additional check that the
extent holds 512 MiB plus a root minimum: when no ESP exists, the ESP
creation command for the first 512 MiB of the chosen extent is issued
unconditionally (clause four). -/
theorem createFromFreeSpace_small_extent_rejected :
    (∀ (w : World) (efi : Bool) (tp dev : String) (s0 e0 sq eq2 : ℚ),
      selExtent w tp = (s0, e0) →
      s0 > 0 ∧ e0 > s0 →
      w.qToDouble (chRemove "MiB" (miBtok s0)) = sq →
      w.qToDouble (chRemove "MiB" (miBtok e0)) = eq2 →
      createFromFreeSpace w efi tp dev =
        freeSpaceTail w efi dev sq eq2
          ("Using selected free extent: " ++ miBtok s0 ++ " → " ++ miBtok e0))
  ∧ (∀ (w : World) (efi : Bool) (tp dev : String) (z bs be sq eq2 : ℚ),
      ¬ ((selExtent w tp).1 > 0 ∧ (selExtent w tp).2 > (selExtent w tp).1) →
      bestFreeExtent w w.freeLines = (z, bs, be) →
      ¬ bs < 0 →
      w.qToDouble (chRemove "MiB" (miBtok bs)) = sq →
      w.qToDouble (chRemove "MiB" (miBtok be)) = eq2 →
      createFromFreeSpace w efi tp dev =
        freeSpaceTail w efi dev sq eq2
          ("Using largest free extent: " ++ miBtok bs ++ " → " ++ miBtok be))
  ∧ (∀ (w : World) (efi : Bool) (dev : String) (sq eq2 : ℚ) (m : String),
      eq2 ≤ sq + 10 →
      freeSpaceTail w efi dev sq eq2 m =
        [Step.log "Searching for free space…", Step.log m,
         Step.error "Selected free space is too small."] ∧
      (freeSpaceTail w efi dev sq eq2 m).any isMkpartStep = false ∧
      Step.complete ∉ freeSpaceTail w efi dev sq eq2 m)
  ∧ (∀ (w : World) (dev : String) (sq eq2 : ℚ) (m : String),
      ¬ (eq2 ≤ sq + 10) →
      findExistingEsp (w.espRowsAt 0) (w.partedPrintAt 0) dev = "" →
      Step.run ["sudo", w.partedBin, dev, "--script", "mkpart", "primary", "fat32",
                miBtok sq, miBtok (sq + 512)] ∈ freeSpaceTail w true dev sq eq2 m) := by
  refine ⟨?_, ?_, ?_, ?_⟩
  · intro w efi tp dev s0 e0 sq eq2 hsel hpos hq1 hq2
    unfold createFromFreeSpace
    rw [hsel]
    dsimp only
    rw [if_pos hpos]
    dsimp only
    rw [hq1, hq2]
    unfold freeSpaceTail
    split_ifs <;> simp
  · intro w efi tp dev z bs be sq eq2 hguard hbest hbs hq1 hq2
    unfold createFromFreeSpace
    try dsimp only
    rw [if_neg hguard]
    try dsimp only
    rw [hbest]
    try dsimp only
    rw [if_neg hbs]
    try dsimp only
    rw [hq1, hq2]
    unfold freeSpaceTail
    split_ifs <;> simp
  · intro w efi dev sq eq2 m hsmall
    unfold freeSpaceTail
    rw [if_pos hsmall]
    exact ⟨rfl, by simp [isMkpartStep], by simp⟩
  · intro w dev sq eq2 m hbig hesp
    unfold freeSpaceTail
    rw [if_neg hbig, if_pos rfl]
    unfold createFreeEfi
    rw [hesp]
    dsimp only
    rw [if_neg (by simp)]
    split_ifs with hx
    · simp
    · refine (createFreeEfiNew_pre w dev eq2 (miBtok (sq + 512))
        (childPartitionsSet (w.lsblkAt 1) dev) _).subset ?_
      simp

/-- C7 witness: with no explicit token, the auto-selected largest
extent 100..150 MiB in EFI mode still receives the unconditional ESP
creation command. -/
theorem createFromFreeSpace_small_extent_rejected_witness :
    Step.run ["sudo", autoFreeWorld.partedBin, "/dev/sdb", "--script", "mkpart", "primary",
              "fat32", miBtok 100, miBtok (100 + 512)] ∈
      createFromFreeSpace autoFreeWorld true "" "/dev/sdb" := by
  have hm1 : miBtok (100 : ℚ) = "100MiB" := by
    unfold miBtok
    rw [show ⌊(100 : ℚ) + 1/2⌋ = (100 : ℤ) from by norm_num]
    decide
  have hm2 : miBtok (150 : ℚ) = "150MiB" := by
    unfold miBtok
    rw [show ⌊(150 : ℚ) + 1/2⌋ = (150 : ℤ) from by norm_num]
    decide
  have he := createFromFreeSpace_small_extent_rejected.2.1 autoFreeWorld true "" "/dev/sdb"
    50 100 150 100 150
    (by
      rw [show selExtent autoFreeWorld "" = ((-1 : ℚ), (-1 : ℚ)) from rfl]
      norm_num)
    (by decide)
    (by norm_num)
    (by rw [hm1]; rfl)
    (by rw [hm2]; rfl)
  rw [he]
  exact createFromFreeSpace_small_extent_rejected.2.2.2 autoFreeWorld "/dev/sdb" 100 150 _
    (by norm_num) rfl

/-- Explicit trace of the EFI reuse branch when every checked command
succeeds. -/
theorem recreateEfiReuse_trace_ok (w : World) (dev : String) (s e : ℤ)
    (esp rp : String) (pre : List Step)
    (hmk : w.exec ["sudo", w.partedBin, dev, "--script", "mkpart", "primary", "ext4",
                   toString s ++ "MiB", toString (e - 1) ++ "MiB"] = 0)
    (hdet : detectNewPartitionNode (w.lsblkAt 1) dev
      (childPartitionsSet (w.lsblkAt 0) dev) = rp)
    (hrp : rp ≠ "")
    (hfmt : w.exec ["sudo", "mkfs.ext4", "-F", rp] = 0)
    (hm : w.exec ["sudo", "mount", rp, "/mnt"] = 0)
    (hespm : w.exec ["sudo", "mount", esp, "/mnt/boot/efi"] = 0) :
    recreateEfiReuse w dev s e esp pre =
      pre ++ [Step.run ["sudo", w.partedBin, dev, "--script", "mkpart", "primary", "ext4",
                        toString s ++ "MiB", toString (e - 1) ++ "MiB"]] ++
      settleSeq dev ++
      [Step.run ["sudo", "mkfs.ext4", "-F", rp],
       Step.run ["sudo", "e2fsck", "-f", rp],
       Step.log "Mounting root partition...",
       Step.run ["sudo", "mount", rp, "/mnt"],
       Step.run ["sudo", "mkdir", "-p", "/mnt/boot/efi"],
       Step.run ["sudo", "mount", esp, "/mnt/boot/efi"]] ++
      recordTargetMountState w rp esp ++ [Step.complete] := by
  unfold recreateEfiReuse
  simp [hmk, hdet, hrp, hfmt, hm, hespm]

/-- When every mount of a root at /mnt command fails, the EFI reuse branch raises
an error and can only have carried completion in from its prefix. -/
theorem recreateEfiReuse_mount_fatal (w : World) (dev : String) (s e : ℤ)
    (esp : String) (pre : List Step)
    (hmf : ∀ rp, w.exec ["sudo", "mount", rp, "/mnt"] = 1) :
    (recreateEfiReuse w dev s e esp pre).any isErrorStep = true ∧
    (Step.complete ∈ recreateEfiReuse w dev s e esp pre → Step.complete ∈ pre) := by
  constructor
  · simp only [recreateEfiReuse, hmf, settleSeq, settleCmd]
    split_ifs <;> simp_all [isErrorStep]
  · simp only [recreateEfiReuse, hmf, settleSeq, settleCmd]
    split_ifs <;> intro hc <;> simp_all

/-- When every mount of a root at /mnt command fails, the root phase of the EFI
carve branch raises an error and can only have carried completion in
from its prefix. -/
theorem recreateEfiCarveRoot_mount_fatal (w : World) (dev : String) (e : ℤ)
    (espEnd espPart : String) (pre : List Step)
    (hmf : ∀ rp, w.exec ["sudo", "mount", rp, "/mnt"] = 1) :
    (recreateEfiCarveRoot w dev e espEnd espPart pre).any isErrorStep = true ∧
    (Step.complete ∈ recreateEfiCarveRoot w dev e espEnd espPart pre →
      Step.complete ∈ pre) := by
  constructor
  · simp only [recreateEfiCarveRoot, hmf, settleSeq, settleCmd]
    split_ifs <;> simp_all [isErrorStep]
  · simp only [recreateEfiCarveRoot, hmf, settleSeq, settleCmd]
    split_ifs <;> intro hc <;> simp_all

/-- When every mount of a root at /mnt command fails, the EFI carve branch raises
an error and can only have carried completion in from its prefix. -/
theorem recreateEfiCarve_mount_fatal (w : World) (dev : String) (s e : ℤ)
    (pre : List Step)
    (hmf : ∀ rp, w.exec ["sudo", "mount", rp, "/mnt"] = 1) :
    (recreateEfiCarve w dev s e pre).any isErrorStep = true ∧
    (Step.complete ∈ recreateEfiCarve w dev s e pre → Step.complete ∈ pre) := by
  constructor
  · simp only [recreateEfiCarve, settleSeq, settleCmd]
    split_ifs <;>
      first
      | exact (recreateEfiCarveRoot_mount_fatal _ _ _ _ _ _ hmf).1
      | simp_all [isErrorStep]
  · simp only [recreateEfiCarve, settleSeq, settleCmd]
    split_ifs <;> intro hc <;>
      first
      | (have h2 := (recreateEfiCarveRoot_mount_fatal _ _ _ _ _ _ hmf).2 hc
         simpa using h2)
      | simp_all

/-- When every mount of a root at /mnt command fails, the BIOS reuse branch
raises an error and can only have carried completion in from its
prefix. -/
theorem recreateBiosReuse_mount_fatal (w : World) (dev : String) (s e : ℤ)
    (bios : String) (pre : List Step)
    (hmf : ∀ rp, w.exec ["sudo", "mount", rp, "/mnt"] = 1) :
    (recreateBiosReuse w dev s e bios pre).any isErrorStep = true ∧
    (Step.complete ∈ recreateBiosReuse w dev s e bios pre → Step.complete ∈ pre) := by
  constructor
  · simp only [recreateBiosReuse, hmf, settleSeq, settleCmd]
    split_ifs <;> simp_all [isErrorStep]
  · simp only [recreateBiosReuse, hmf, settleSeq, settleCmd]
    split_ifs <;> intro hc <;> simp_all

/-- When every mount of a root at /mnt command fails, the root phase of the BIOS
carve branch raises an error and can only have carried completion in
from its prefix. -/
theorem recreateBiosCarveRoot_mount_fatal (w : World) (dev : String)
    (bEnd e : ℤ) (pre : List Step)
    (hmf : ∀ rp, w.exec ["sudo", "mount", rp, "/mnt"] = 1) :
    (recreateBiosCarveRoot w dev bEnd e pre).any isErrorStep = true ∧
    (Step.complete ∈ recreateBiosCarveRoot w dev bEnd e pre → Step.complete ∈ pre) := by
  constructor
  · simp only [recreateBiosCarveRoot, hmf, settleSeq, settleCmd]
    split_ifs <;> simp_all [isErrorStep]
  · simp only [recreateBiosCarveRoot, hmf, settleSeq, settleCmd]
    split_ifs <;> intro hc <;> simp_all

/-- When every mount of a root at /mnt command fails, the BIOS carve branch
raises an error and can only have carried completion in from its
prefix. -/
theorem recreateBiosCarve_mount_fatal (w : World) (dev : String) (s e : ℤ)
    (pre : List Step)
    (hmf : ∀ rp, w.exec ["sudo", "mount", rp, "/mnt"] = 1) :
    (recreateBiosCarve w dev s e pre).any isErrorStep = true ∧
    (Step.complete ∈ recreateBiosCarve w dev s e pre → Step.complete ∈ pre) := by
  constructor
  · simp only [recreateBiosCarve, settleSeq, settleCmd]
    split_ifs <;>
      first
      | exact (recreateBiosCarveRoot_mount_fatal _ _ _ _ _ hmf).1
      | simp_all [isErrorStep]
  · simp only [recreateBiosCarve, settleSeq, settleCmd]
    split_ifs <;> intro hc <;>
      first
      | (have h2 := (recreateBiosCarveRoot_mount_fatal _ _ _ _ _ hmf).2 hc
         simpa using h2)
      | simp_all

/-- When every mount of a root at /mnt command fails, the UsePartition strategy
raises an error and never emits completion, in every branch. -/
theorem recreate_root_mount_fatal (w : World) (efi : Bool) (tp dev : String)
    (hmf : ∀ rp, w.exec ["sudo", "mount", rp, "/mnt"] = 1) :
    (recreateFromSelectedPartition w efi tp dev).any isErrorStep = true ∧
    Step.complete ∉ recreateFromSelectedPartition w efi tp dev := by
  unfold recreateFromSelectedPartition
  rcases hg : w.geomFound with _ | geom <;> dsimp only
  · exact ⟨by simp [isErrorStep], by simp⟩
  · rcases hpb : parseMiBToBounds geom.1 geom.2 with _ | b <;> dsimp only
    · exact ⟨by simp [isErrorStep], by simp⟩
    · split_ifs with h1 h2 h3 h4
      · exact ⟨by simp [isErrorStep], by simp⟩
      · exact ⟨by simp [isErrorStep], by simp⟩
      · exact ⟨by simp [isErrorStep], by simp⟩
      · refine ⟨(recreateEfiReuse_mount_fatal _ _ _ _ _ _ hmf).1, fun hc => ?_⟩
        have h := (recreateEfiReuse_mount_fatal _ _ _ _ _ _ hmf).2 hc
        simp [settleSeq, settleCmd] at h
      · refine ⟨(recreateEfiCarve_mount_fatal _ _ _ _ _ hmf).1, fun hc => ?_⟩
        have h := (recreateEfiCarve_mount_fatal _ _ _ _ _ hmf).2 hc
        simp [settleSeq, settleCmd] at h
      · refine ⟨(recreateBiosReuse_mount_fatal _ _ _ _ _ _ hmf).1, fun hc => ?_⟩
        have h := (recreateBiosReuse_mount_fatal _ _ _ _ _ _ hmf).2 hc
        simp [settleSeq, settleCmd] at h
      · refine ⟨(recreateBiosCarve_mount_fatal _ _ _ _ _ hmf).1, fun hc => ?_⟩
        have h := (recreateBiosCarve_mount_fatal _ _ _ _ _ hmf).2 hc
        simp [settleSeq, settleCmd] at h

/-- C9 counterexample: in a WipeDrive EFI run in which the root mount
command fails (exit code 1), the engine still emits the completion
signal and raises no error at all: a failed root mount is not fatal on
this path. -/
theorem wipe_root_mount_failure_not_fatal_counterexample :
    wipeMountFailWorld.exec ["sudo", "mount", "/dev/sdb2", "/mnt"] = 1 ∧
    Step.run ["sudo", "mount", "/dev/sdb2", "/mnt"] ∈
      runWipeDrive wipeMountFailWorld true "/dev/sdb" ∧
    Step.complete ∈ runWipeDrive wipeMountFailWorld true "/dev/sdb" ∧
    (runWipeDrive wipeMountFailWorld true "/dev/sdb").filter isErrorStep = [] := by
  exact ⟨by decide, by decide, by decide, by decide⟩

/-- C9 (amended): in the UsePartition EFI reuse branch the root
partition is mounted strictly before the reused ESP; a failed root
mount there is fatal (error, no completion), and a failed mount of the
reused ESP is likewise fatal (this branch only arises in EFI mode);
indeed in every branch of the UsePartition strategy a run in which all
root mounts fail raises an error and never completes; the same mount
order holds on the WipeDrive EFI path; and in the UseFreeSpace BIOS
branch a failed root mount is fatal. The WipeDrive and UseFreeSpace
EFI paths however ignore the mount results: in the UseFreeSpace EFI
reuse path completion is emitted with no error even when both the root
mount and the reused-ESP mount fail (see also the counterexample for
WipeDrive). -/
theorem mount_order_and_fatality :
    (∀ (w : World) (dev : String) (s e : ℤ) (esp rp : String) (pre : List Step),
      w.exec ["sudo", w.partedBin, dev, "--script", "mkpart", "primary", "ext4",
              toString s ++ "MiB", toString (e - 1) ++ "MiB"] = 0 →
      detectNewPartitionNode (w.lsblkAt 1) dev
        (childPartitionsSet (w.lsblkAt 0) dev) = rp →
      rp ≠ "" →
      w.exec ["sudo", "mkfs.ext4", "-F", rp] = 0 →
      Step.complete ∉ pre →
      ((w.exec ["sudo", "mount", rp, "/mnt"] = 0 →
        w.exec ["sudo", "mount", esp, "/mnt/boot/efi"] = 0 →
        ∃ l1 l2 l3, recreateEfiReuse w dev s e esp pre =
          l1 ++ Step.run ["sudo", "mount", rp, "/mnt"] ::
            (l2 ++ Step.run ["sudo", "mount", esp, "/mnt/boot/efi"] :: l3)) ∧
       (w.exec ["sudo", "mount", rp, "/mnt"] ≠ 0 →
        Step.error "Failed to mount root at /mnt." ∈ recreateEfiReuse w dev s e esp pre ∧
        Step.complete ∉ recreateEfiReuse w dev s e esp pre) ∧
       (w.exec ["sudo", "mount", rp, "/mnt"] = 0 →
        w.exec ["sudo", "mount", esp, "/mnt/boot/efi"] ≠ 0 →
        Step.error "Failed to mount existing ESP at /mnt/boot/efi." ∈
          recreateEfiReuse w dev s e esp pre ∧
        Step.complete ∉ recreateEfiReuse w dev s e esp pre)))
  ∧ (∀ (w : World) (efi : Bool) (tp dev : String),
      (∀ rp, w.exec ["sudo", "mount", rp, "/mnt"] = 1) →
      (recreateFromSelectedPartition w efi tp dev).any isErrorStep = true ∧
      Step.complete ∉ recreateFromSelectedPartition w efi tp dev)
  ∧ (∀ (w : World) (dev : String) (sq eq2 : ℚ) (rp : String) (pre : List Step),
      w.exec ["sudo", w.partedBin, dev, "--script", "mkpart", "primary", "ext4",
              miBtok sq, miBtok (eq2 - 1)] = 0 →
      detectNewPartitionNode (w.lsblkAt 2) dev
        (childPartitionsSet (w.lsblkAt 1) dev) = rp →
      rp ≠ "" →
      w.exec ["sudo", "mkfs.ext4", "-F", rp] = 0 →
      Step.complete ∉ pre →
      w.exec ["sudo", "mount", rp, "/mnt"] ≠ 0 →
      Step.error "Failed to mount root at /mnt." ∈ createFreeBios w dev sq eq2 pre ∧
      Step.complete ∉ createFreeBios w dev sq eq2 pre)
  ∧ (∀ (w : World) (dev p1 p2 : String),
      w.exec ["sudo", w.partedBin, dev, "--script", "mklabel", "gpt"] = 0 →
      w.exec ["sudo", w.partedBin, dev, "--script", "mkpart", "primary", "fat32",
              "1MiB", "513MiB"] = 0 →
      w.exec ["sudo", w.partedBin, dev, "--script", "name", "1", "ESP"] = 0 →
      w.exec ["sudo", w.partedBin, dev, "--script", "set", "1", "esp", "on"] = 0 →
      w.exec ["sudo", w.partedBin, dev, "--script", "mkpart", "primary", "ext4",
              "513MiB", "100%"] = 0 →
      w.lsblkNames = [p1, p2] →
      w.exec ["sudo", "mkfs.fat", "-F32", "/dev/" ++ p1] = 0 →
      w.exec ["sudo", "mkfs.ext4", "-F", "/dev/" ++ p2] = 0 →
      ∃ l1 l2 l3, runWipeDrive w true dev =
        l1 ++ Step.run ["sudo", "mount", "/dev/" ++ p2, "/mnt"] ::
          (l2 ++ Step.run ["sudo", "mount", "/dev/" ++ p1, "/mnt/boot/efi"] :: l3))
  ∧ (∀ (w : World) (dev : String) (sq eq2 : ℚ) (esp rp : String) (pre : List Step),
      findExistingEsp (w.espRowsAt 0) (w.partedPrintAt 0) dev = esp →
      esp ≠ "" →
      isPartitionVfat w esp = true →
      w.exec ["sudo", w.partedBin, dev, "--script", "mkpart", "primary", "ext4",
              miBtok sq, miBtok (eq2 - 1)] = 0 →
      detectNewPartitionNode (w.lsblkAt 2) dev
        (childPartitionsSet (w.lsblkAt 1) dev) = rp →
      rp ≠ "" →
      w.exec ["sudo", "mkfs.ext4", "-F", rp] = 0 →
      w.exec ["sudo", "mount", rp, "/mnt"] = 1 →
      w.exec ["sudo", "mount", esp, "/mnt/boot/efi"] = 1 →
      Step.run ["sudo", "mount", rp, "/mnt"] ∈ createFreeEfi w dev sq eq2 pre ∧
      Step.run ["sudo", "mount", esp, "/mnt/boot/efi"] ∈ createFreeEfi w dev sq eq2 pre ∧
      Step.complete ∈ createFreeEfi w dev sq eq2 pre ∧
      (createFreeEfi w dev sq eq2 pre).filter isErrorStep = pre.filter isErrorStep) := by
  refine ⟨?_, ?_, ?_, ?_, ?_⟩
  · intro w dev s e esp rp pre hmk hdet hrp hfmt hpre
    refine ⟨?_, ?_, ?_⟩
    · intro hm hespm
      refine ⟨pre ++ [Step.run ["sudo", w.partedBin, dev, "--script", "mkpart", "primary",
          "ext4", toString s ++ "MiB", toString (e - 1) ++ "MiB"]] ++ settleSeq dev ++
          [Step.run ["sudo", "mkfs.ext4", "-F", rp], Step.run ["sudo", "e2fsck", "-f", rp],
           Step.log "Mounting root partition..."],
        [Step.run ["sudo", "mkdir", "-p", "/mnt/boot/efi"]],
        recordTargetMountState w rp esp ++ [Step.complete], ?_⟩
      rw [recreateEfiReuse_trace_ok w dev s e esp rp pre hmk hdet hrp hfmt hm hespm]
      simp
    · intro hmf
      unfold recreateEfiReuse
      simp only [hmk, hdet, hrp, hfmt, settleSeq, settleCmd]
      simp [hmf, hpre, isErrorStep]
    · intro hm hespf
      unfold recreateEfiReuse
      simp only [hmk, hdet, hrp, hfmt, hm, settleSeq, settleCmd]
      simp [hm, hespf, hpre]
  · exact fun w efi tp dev hmf => recreate_root_mount_fatal w efi tp dev hmf
  · intro w dev sq eq2 rp pre hmk hdet hrp hfmt hpre hmf
    unfold createFreeBios
    simp only [hmk, hdet, hrp, hfmt, settleSeq, settleCmd]
    simp [hmf, hpre]
  · intro w dev p1 p2 hml h1 h2 h3 h4 hparts hfat hext
    refine ⟨[Step.log "Preparing drive for EFI (GPT + ESP + root)",
        Step.run ["sudo", w.partedBin, dev, "--script", "mklabel", "gpt"]] ++
        settleSeq dev ++
        [Step.run ["sudo", w.partedBin, dev, "--script", "mkpart", "primary", "fat32",
                   "1MiB", "513MiB"],
         Step.run ["sudo", w.partedBin, dev, "--script", "name", "1", "ESP"],
         Step.run ["sudo", w.partedBin, dev, "--script", "set", "1", "esp", "on"],
         Step.run ["sudo", w.partedBin, dev, "--script", "mkpart", "primary", "ext4",
                   "513MiB", "100%"]] ++
        settleSeq dev ++
        [Step.log "Formatting ESP as FAT32...",
         Step.run ["sudo", "mkfs.fat", "-F32", "/dev/" ++ p1],
         Step.log "Formatting root as ext4...",
         Step.run ["sudo", "mkfs.ext4", "-F", "/dev/" ++ p2],
         Step.run ["sudo", "e2fsck", "-f", "/dev/" ++ p2],
         Step.log "Mounting new partitions..."],
      [Step.run ["sudo", "mkdir", "-p", "/mnt/boot/efi"]],
      recordTargetMountState w ("/dev/" ++ p2) ("/dev/" ++ p1) ++ [Step.complete], ?_⟩
    rw [runWipeDrive_efi_trace w dev p1 p2 hml h1 h2 h3 h4 hparts hfat hext]
    simp
  · intro w dev sq eq2 esp rp pre hesp hespne hvfat hmk hdet hrp hfmt hmr hespf
    unfold createFreeEfi freeEfiFinish
    simp only [hesp]
    simp [hespne, hvfat, hmk, hdet, hrp, hfmt, settleSeq, settleCmd, isErrorStep]

/-- C9 witness: the mount-order decomposition at a concrete reuse
world, the UsePartition fatality at a world where every mount fails,
and the free-space EFI completion despite both mounts failing. -/
theorem mount_order_and_fatality_witness :
    (∃ l1 l2 l3, recreateEfiReuse reuseWorld "/dev/sdb" 1 400 "/dev/sda1" [] =
      l1 ++ Step.run ["sudo", "mount", "/dev/sdb1", "/mnt"] ::
        (l2 ++ Step.run ["sudo", "mount", "/dev/sda1", "/mnt/boot/efi"] :: l3)) ∧
    ((recreateFromSelectedPartition allMountFailWorld true "/dev/sdb1" "/dev/sdb").any
        isErrorStep = true ∧
      Step.complete ∉
        recreateFromSelectedPartition allMountFailWorld true "/dev/sdb1" "/dev/sdb") ∧
    (allMountFailWorld.exec ["sudo", "mount", "/dev/sdb1", "/mnt"] = 1 ∧
      freeReuseMountFailWorld.exec ["sudo", "mount", "/dev/sdb1", "/mnt"] = 1 ∧
      freeReuseMountFailWorld.exec ["sudo", "mount", "/dev/sda1", "/mnt/boot/efi"] = 1) ∧
    Step.complete ∈ createFreeEfi freeReuseMountFailWorld "/dev/sdb" 100 150 [] :=
  ⟨((mount_order_and_fatality.1 reuseWorld "/dev/sdb" 1 400 "/dev/sda1" "/dev/sdb1" []
      (by decide) (by decide) (by decide) (by decide) (by decide)).1 (by decide) (by decide)),
   mount_order_and_fatality.2.1 allMountFailWorld true "/dev/sdb1" "/dev/sdb"
     (fun rp => rfl),
   ⟨by decide, by decide, by decide⟩,
   (mount_order_and_fatality.2.2.2.2 freeReuseMountFailWorld "/dev/sdb" 100 150
      "/dev/sda1" "/dev/sdb1" [] (by decide) (by decide) (by decide) (by decide)
      (by decide) (by decide) (by decide) (by decide) (by decide)).2.2.1⟩

/-- C10: when the explicit free-extent token fails its guard — the
parsed start is not positive or the parsed end is not strictly greater
than the start, which covers malformed and non-numeric fields since
their toDouble parse yields 0 — the UseFreeSpace strategy behaves
exactly as if no explicit extent had been supplied: it silently falls
back to auto-selecting the largest free extent instead of raising an
error about the token. -/
theorem freeToken_malformed_fallback (w : World) (efi : Bool) (tp dev : String)
    (hguard : ¬ ((selExtent w tp).1 > 0 ∧ (selExtent w tp).2 > (selExtent w tp).1)) :
    createFromFreeSpace w efi tp dev = createFromFreeSpace w efi "" dev := by
  unfold createFromFreeSpace
  dsimp only
  rw [if_neg hguard,
    show selExtent w "" = ((-1 : ℚ), (-1 : ℚ)) from rfl,
    if_neg (show ¬ ((-1 : ℚ) > 0 ∧ (-1 : ℚ) > (-1 : ℚ)) by norm_num)]

/-- C10 witness: the non-numeric start field abc parses to 0, fails the
guard, and the run equals the tokenless run. -/
theorem freeToken_malformed_fallback_witness :
    createFromFreeSpace freeWorld true "__FREE__:abc:150" "/dev/sdb" =
      createFromFreeSpace freeWorld true "" "/dev/sdb" :=
  freeToken_malformed_fallback freeWorld true "__FREE__:abc:150" "/dev/sdb"
    (by
      rw [show selExtent freeWorld "__FREE__:abc:150" = ((0 : ℚ), (150 : ℚ)) from rfl]
      norm_num)
